import Mathlib

/-!
# KrazyKarts: GoKartReplicationComponent

A shallow embedding of `Source/KrazyKarts/GoKartReplicationComponent.{h,cpp}` and the
properties of its move buffer, server validation, reconciliation and Hermite
interpolation.

Conventions of the embedding:
* A `float` value is the rational it denotes (`ℚ`); comparisons of floats are comparisons
  of rationals. The additions the component performs on its timers (`+=` on
  `ClientSimulatedTime` and `ClientTimeSinceUpdate`, `+` for `ProposedTime`) go through a
  parameter `FloatAdd`: `Float32.add`, the sum rounded to the nearest 32-bit float, for the
  engine's arithmetic, and `ExactAdd` where arithmetic is taken as exact. The spline
  arithmetic (`CreateSpline`, `FMath::CubicInterp`) is kept exact.
* `TArray<T>` is `List T`; `Add` appends at the end.
* A member function that mutates the component is a function from the component value
  before the call to the component value after it.
* A `UPROPERTY` pointer to another object is an `Option` holding the pointee's state;
  `nullptr` is `none`.
-/

namespace KrazyKarts

/-! ## Engine value types -/

/-- Unreal Engine `FVector`; the three `float` components are exact rationals. -/
@[ext] structure FVector where
  X : ℚ
  Y : ℚ
  Z : ℚ
deriving DecidableEq

namespace FVector

/-- Component-wise sum, `FVector::operator+`. -/
def add (a b : FVector) : FVector := ⟨a.X + b.X, a.Y + b.Y, a.Z + b.Z⟩

/-- Component-wise difference, `FVector::operator-`. -/
def sub (a b : FVector) : FVector := ⟨a.X - b.X, a.Y - b.Y, a.Z - b.Z⟩

/-- Scaling by a `float`, `FVector::operator*(float)` and `operator*(float, FVector)`. -/
def scale (k : ℚ) (a : FVector) : FVector := ⟨k * a.X, k * a.Y, k * a.Z⟩

/-- Division by a `float`, `FVector::operator/(float)`. -/
def div (a : FVector) (k : ℚ) : FVector := ⟨a.X / k, a.Y / k, a.Z / k⟩

instance : Add FVector := ⟨add⟩
instance : Sub FVector := ⟨sub⟩
instance : HMul ℚ FVector FVector := ⟨scale⟩
instance : HMul FVector ℚ FVector := ⟨fun a k => scale k a⟩
instance : HDiv FVector ℚ FVector := ⟨div⟩

end FVector

/-- Unreal Engine `FQuat`. -/
@[ext] structure FQuat where
  X : ℚ
  Y : ℚ
  Z : ℚ
  W : ℚ
deriving DecidableEq

/-- Unreal Engine `FTransform`: rotation, translation and scale. -/
@[ext] structure FTransform where
  Rotation : FQuat
  Translation : FVector
  Scale3D : FVector
deriving DecidableEq

namespace FTransform

/-- `FTransform::GetLocation`. -/
def GetLocation (t : FTransform) : FVector := t.Translation

/-- `FTransform::GetRotation`. -/
def GetRotation (t : FTransform) : FQuat := t.Rotation

/-- `FTransform::SetLocation`. -/
def SetLocation (t : FTransform) (v : FVector) : FTransform := { t with Translation := v }

/-- `FTransform::SetRotation`. -/
def SetRotation (t : FTransform) (q : FQuat) : FTransform := { t with Rotation := q }

end FTransform

/-- Unreal Engine `ENetRole`, the four roles `GetEnumText` distinguishes. -/
inductive ENetRole where
  | ROLE_None
  | ROLE_SimulatedProxy
  | ROLE_AutonomousProxy
  | ROLE_Authority
deriving DecidableEq

open ENetRole

/-- Unreal Engine `KINDA_SMALL_NUMBER`, the `float` literal `1.e-4f`: the 32-bit float
nearest to `1 / 10000`, which is `13743895 * 2 ^ (-37)`. -/
def KINDA_SMALL_NUMBER : ℚ := 13743895 / 137438953472

/-! ## Float arithmetic -/

namespace Float32

/-- The number of binary digits of `n`, by repeated halving; `fuel` bounds the number of
halvings, and `fuel = n` always suffices. -/
def bitLength : ℕ → ℕ → ℕ
  | 0, _ => 0
  | fuel + 1, n => if n = 0 then 0 else bitLength fuel (n / 2) + 1

/-- The binary exponent of a non-zero rational `x`: the integer `e` with
`2 ^ e ≤ |x| < 2 ^ (e + 1)`. -/
def log2Floor (x : ℚ) : ℤ :=
  let a : ℤ := (bitLength x.num.natAbs x.num.natAbs : ℕ)
  let b : ℤ := (bitLength x.den x.den : ℕ)
  if (2 : ℚ) ^ (a - b) ≤ |x| then a - b else a - b - 1

/-- The spacing of the 32-bit floats around `x`: `2 ^ (e - 23)` for the binary exponent `e`
of `x` (24 significant bits), `e` not taken below `-126` (subnormal range). -/
def quantum (x : ℚ) : ℚ := (2 : ℚ) ^ (max (log2Floor x) (-126) - 23)

/-- The integer nearest to `q`, halves going to the even neighbour. -/
def roundHalfEven (q : ℚ) : ℤ :=
  let f : ℤ := ⌊q⌋
  let r : ℚ := q - f
  if r < 1 / 2 then f else if 1 / 2 < r then f + 1 else if f % 2 = 0 then f else f + 1

/-- The 32-bit float nearest to `x` (IEEE 754 binary32, round to nearest, ties to even).
Magnitudes beyond the largest finite float, where the engine's `float` becomes infinite,
are outside this model. -/
def round (x : ℚ) : ℚ :=
  if x = 0 then 0 else (roundHalfEven (x / quantum x) : ℚ) * quantum x

/-- The engine's `float` addition (`+`, `+=`): the exact sum rounded to a 32-bit float. -/
def add (a b : ℚ) : ℚ := round (a + b)

end Float32

/-- Addition with arithmetic taken as exact. -/
def ExactAdd (a b : ℚ) : ℚ := a + b

/-! ## Move record and movement component (declared in `GoKartMovementComponent.h`) -/

/-- Modelled from the spec: `FGoKartMove`, declared in `GoKartMovementComponent.h`
(section 3, Move): steering, throttle, `deltaTime` and `timestamp`. -/
structure FGoKartMove where
  Throttle : ℚ
  SteeringThrow : ℚ
  DeltaTime : ℚ
  TimeStamp : ℚ
deriving DecidableEq

/-- Modelled from the spec: `FGoKartMove::IsValid`, declared in `GoKartMovementComponent.h`
(section 3): holds iff steering and throttle lie within their unit ranges `[-1, 1]`. -/
def FGoKartMove.IsValid (m : FGoKartMove) : Bool :=
  decide (|m.Throttle| ≤ 1) && decide (|m.SteeringThrow| ≤ 1)

/-- Modelled from the spec: the state of the external movement simulator
(section 6): the owner's position/rotation (its actor transform) and the velocity held by
`UGoKartMovementComponent`. -/
structure FSimulatorState where
  Transform : FTransform
  Velocity : FVector
deriving DecidableEq

/-- Modelled from the spec: the data of `UGoKartMovementComponent` (declared in
`GoKartMovementComponent.h`) that this component reads and writes: the velocity behind
`GetVelocity`/`SetVelocity` and the move returned by `GetLastMove`. -/
structure UGoKartMovementComponent where
  Velocity : FVector
  LastMove : FGoKartMove
deriving DecidableEq

/-- The visual node (`USceneComponent`) behind `MeshOffsetRoot`: its world location and
world rotation. -/
structure USceneComponent where
  WorldLocation : FVector
  WorldRotation : FQuat
deriving DecidableEq

/-! ## Data declared in `GoKartReplicationComponent.h` -/

/-- The replicated server state, `FGoKartState`. -/
structure FGoKartState where
  LastMove : FGoKartMove
  Transform : FTransform
  Velocity : FVector
deriving DecidableEq

/-- The spline record `FHermiteCubicSpline`. -/
structure FHermiteCubicSpline where
  StartLocation : FVector
  StartDerivative : FVector
  TargetLocation : FVector
  TargetDerivative : FVector
  LerpRatio : ℚ
  VelocityToDerative : ℚ
deriving DecidableEq

/-- The two diagnostics `Server_SendMove_Validate` writes with `UE_LOG`. -/
inductive FLogLine where
  | ClientIsRunningTooFast
  | ReceivedInvalidMove
deriving DecidableEq

/-- The component `UGoKartReplicationComponent` together with the engine context its
member functions reach.

Member fields of the class: `ServerState`, `MeshOffsetRoot`, `MovementComponent`,
`UnacknowledgedMoves`, `ClientStartTransform`, `ClientTimeSinceUpdate`,
`ClientTimeBetweenLastUpdate`, `ClientStartVelocity`, `ClientSimulatedTime`.

Engine context: `OwnerRole` is `GetOwnerRole()`, `OwnerIsLocallyControlled` is
`Cast<APawn>(GetOwner())->IsLocallyControlled()`, `OwnerTransform` is the actor transform
behind `GetOwner()->GetActorTransform()` and `SetActorTransform`, `TimeSeconds` is
`GetWorld()->TimeSeconds`, `SentMoves` collects the moves handed to the `Server_SendMove`
remote call on the sending side, and `OutputLog` collects the `UE_LOG` lines. The owner is
taken to be a pawn, so the `Cast<APawn>` succeeds. `MeshOffsetRoot` carries its own world
location and rotation; `SetActorTransform` writes `OwnerTransform` only. -/
structure UGoKartReplicationComponent where
  ServerState : FGoKartState
  MeshOffsetRoot : Option USceneComponent
  MovementComponent : Option UGoKartMovementComponent
  UnacknowledgedMoves : List FGoKartMove
  ClientStartTransform : FTransform
  ClientTimeSinceUpdate : ℚ
  ClientTimeBetweenLastUpdate : ℚ
  ClientStartVelocity : FVector
  ClientSimulatedTime : ℚ
  OwnerRole : ENetRole
  OwnerIsLocallyControlled : Bool
  OwnerTransform : FTransform
  TimeSeconds : ℚ
  SentMoves : List FGoKartMove
  OutputLog : List FLogLine
deriving DecidableEq

/-! ## `ClearAcknowledgedMoves` -/

/-- The body of the range-for loop of `ClearAcknowledgedMoves`: `NewMoves.Add(Move)` when
`Move.TimeStamp > LastMove.TimeStamp`. -/
def ClearAcknowledgedMoves.loopBody (LastMove : FGoKartMove)
    (NewMoves : List FGoKartMove) (Move : FGoKartMove) : List FGoKartMove :=
  if Move.TimeStamp > LastMove.TimeStamp then NewMoves ++ [Move] else NewMoves

/-- `UGoKartReplicationComponent::ClearAcknowledgedMoves`: iterate over
`UnacknowledgedMoves` building `NewMoves`, then assign it back. -/
def ClearAcknowledgedMoves (LastMove : FGoKartMove)
    (c : UGoKartReplicationComponent) : UGoKartReplicationComponent :=
  let NewMoves : List FGoKartMove :=
    c.UnacknowledgedMoves.foldl (ClearAcknowledgedMoves.loopBody LastMove) []
  { c with UnacknowledgedMoves := NewMoves }

/-! ## Hermite spline (`FHermiteCubicSpline`, `CreateSpline`) -/

/-- Unreal Engine `FMath::CubicInterp(P0, T0, P1, T1, A)`: the cubic Hermite position
basis. -/
def FMath.CubicInterp (P0 T0 P1 T1 : FVector) (A : ℚ) : FVector :=
  let A2 : ℚ := A * A
  let A3 : ℚ := A2 * A
  (((2 * A3) - (3 * A2) + 1) * P0) + ((A3 - (2 * A2) + A) * T0) + ((A3 - A2) * T1)
    + (((-2 * A3) + (3 * A2)) * P1)

/-- Unreal Engine `FMath::CubicInterpDerivative(P0, T0, P1, T1, A)`: the derivative of the
cubic Hermite basis. -/
def FMath.CubicInterpDerivative (P0 T0 P1 T1 : FVector) (A : ℚ) : FVector :=
  let a : FVector := (6 : ℚ) * P0 + (3 : ℚ) * T0 + (3 : ℚ) * T1 - (6 : ℚ) * P1
  let b : FVector := (-6 : ℚ) * P0 - (4 : ℚ) * T0 - (2 : ℚ) * T1 + (6 : ℚ) * P1
  let c : FVector := T0
  let A2 : ℚ := A * A
  (a * A2) + (b * A) + c

/-- `FHermiteCubicSpline::InterpolateLocation`. -/
def FHermiteCubicSpline.InterpolateLocation (s : FHermiteCubicSpline) : FVector :=
  FMath.CubicInterp s.StartLocation s.StartDerivative s.TargetLocation s.TargetDerivative
    s.LerpRatio

/-- `FHermiteCubicSpline::InterpolateDerivative`. -/
def FHermiteCubicSpline.InterpolateDerivative (s : FHermiteCubicSpline) : FVector :=
  FMath.CubicInterpDerivative s.StartLocation s.StartDerivative s.TargetLocation
    s.TargetDerivative s.LerpRatio

/-- `UGoKartReplicationComponent::CreateSpline`. -/
def CreateSpline (c : UGoKartReplicationComponent) : FHermiteCubicSpline :=
  let LerpRatio : ℚ := c.ClientTimeSinceUpdate / c.ClientTimeBetweenLastUpdate
  let VelocityToDerative : ℚ := c.ClientTimeBetweenLastUpdate * 100
  { LerpRatio := LerpRatio
    VelocityToDerative := VelocityToDerative
    StartLocation := c.ClientStartTransform.GetLocation
    TargetLocation := c.ServerState.Transform.GetLocation
    StartDerivative := c.ClientStartVelocity * VelocityToDerative
    TargetDerivative := c.ServerState.Velocity * VelocityToDerative }

/-! ## Observer tick (`ClientTick` and its three interpolation steps) -/

/-- `UGoKartReplicationComponent::InterpLocation`: returns at once when `MeshOffsetRoot`
is null, otherwise `SetWorldLocation` of the interpolated location. -/
def InterpLocation (Spline : FHermiteCubicSpline)
    (c : UGoKartReplicationComponent) : UGoKartReplicationComponent :=
  match c.MeshOffsetRoot with
  | none => c
  | some root =>
    let NewLocation : FVector := Spline.InterpolateLocation
    { c with MeshOffsetRoot := some { root with WorldLocation := NewLocation } }

/-- The velocity `InterpDerivative` hands to `SetVelocity`:
`Spline.InterpolateDerivative() / Spline.VelocityToDerative`. -/
def InterpDerivative.NewVelocity (Spline : FHermiteCubicSpline) : FVector :=
  let NewDerivative : FVector := Spline.InterpolateDerivative
  NewDerivative / Spline.VelocityToDerative

/-- `UGoKartReplicationComponent::InterpDerivative`:
`MovementComponent->SetVelocity(NewVelocity)`. The source dereferences
`MovementComponent` without a check; its only caller, `ClientTick`, has checked it. -/
def InterpDerivative (Spline : FHermiteCubicSpline)
    (c : UGoKartReplicationComponent) : UGoKartReplicationComponent :=
  match c.MovementComponent with
  | none => c
  | some mc =>
    let NewVelocity : FVector := InterpDerivative.NewVelocity Spline
    { c with MovementComponent := some { mc with Velocity := NewVelocity } }

/-- `UGoKartReplicationComponent::InterpRotation`; `Slerp` is the engine's
`FQuat::Slerp`. -/
def InterpRotation (Slerp : FQuat → FQuat → ℚ → FQuat) (Spline : FHermiteCubicSpline)
    (c : UGoKartReplicationComponent) : UGoKartReplicationComponent :=
  match c.MeshOffsetRoot with
  | none => c
  | some root =>
    let StartRotation : FQuat := c.ClientStartTransform.GetRotation
    let TargetRotation : FQuat := c.ServerState.Transform.GetRotation
    let NewRotation : FQuat := Slerp StartRotation TargetRotation Spline.LerpRatio
    { c with MeshOffsetRoot := some { root with WorldRotation := NewRotation } }

/-- `UGoKartReplicationComponent::ClientTick`, giving next to the component after the call
the spline the call built, `none` when it returned before `CreateSpline`. `FloatAdd` is the
addition of `ClientTimeSinceUpdate += DeltaTime`. -/
def ClientTick.run (FloatAdd : ℚ → ℚ → ℚ) (Slerp : FQuat → FQuat → ℚ → FQuat)
    (DeltaTime : ℚ) (c : UGoKartReplicationComponent) :
    Option FHermiteCubicSpline × UGoKartReplicationComponent :=
  let c1 : UGoKartReplicationComponent :=
    { c with ClientTimeSinceUpdate := FloatAdd c.ClientTimeSinceUpdate DeltaTime }
  if c1.ClientTimeBetweenLastUpdate < KINDA_SMALL_NUMBER then (none, c1)
  else
    match c1.MovementComponent with
    | none => (none, c1)
    | some _ =>
      let Spline : FHermiteCubicSpline := CreateSpline c1
      let c2 := InterpLocation Spline c1
      let c3 := InterpDerivative Spline c2
      (some Spline, InterpRotation Slerp Spline c3)

/-- `UGoKartReplicationComponent::ClientTick`: the component after the call. -/
def ClientTick (FloatAdd : ℚ → ℚ → ℚ) (Slerp : FQuat → FQuat → ℚ → FQuat) (DeltaTime : ℚ)
    (c : UGoKartReplicationComponent) : UGoKartReplicationComponent :=
  (ClientTick.run FloatAdd Slerp DeltaTime c).2

/-! ## Server authority (`Server_SendMove`) -/

/-- `UGoKartReplicationComponent::Server_SendMove_Validate`: the returned flag together
with the component after the call (the function is not `const`). `FloatAdd` is the
addition of `ClientSimulatedTime + Move.DeltaTime`. -/
def Server_SendMove_Validate (FloatAdd : ℚ → ℚ → ℚ) (Move : FGoKartMove)
    (c : UGoKartReplicationComponent) : Bool × UGoKartReplicationComponent :=
  let ProposedTime : ℚ := FloatAdd c.ClientSimulatedTime Move.DeltaTime
  let ClientNotRunningAhead : Bool := decide (ProposedTime < c.TimeSeconds)
  if !ClientNotRunningAhead then
    (false, { c with OutputLog := c.OutputLog ++ [FLogLine.ClientIsRunningTooFast] })
  else if !Move.IsValid then
    (false, { c with OutputLog := c.OutputLog ++ [FLogLine.ReceivedInvalidMove] })
  else
    (true, c)

/-- The simulator state seen through the component: the owner's transform and the
movement component's velocity (`none` when `MovementComponent` is null). -/
def SimulatorState (c : UGoKartReplicationComponent) : Option FSimulatorState :=
  c.MovementComponent.map fun mc => { Transform := c.OwnerTransform, Velocity := mc.Velocity }

/-- `MovementComponent->SimulateMove(Move)`: the external simulator step `SimulateMove`
applied to the owner's transform and the movement component's velocity. -/
def MovementComponent_SimulateMove
    (SimulateMove : FGoKartMove → FSimulatorState → FSimulatorState) (Move : FGoKartMove)
    (c : UGoKartReplicationComponent) : UGoKartReplicationComponent :=
  match c.MovementComponent with
  | none => c
  | some mc =>
    let s : FSimulatorState :=
      SimulateMove Move { Transform := c.OwnerTransform, Velocity := mc.Velocity }
    { c with OwnerTransform := s.Transform
             MovementComponent := some { mc with Velocity := s.Velocity } }

/-- `UGoKartReplicationComponent::UpdateServerState`. The source dereferences
`MovementComponent` without a check; both callers have checked it. -/
def UpdateServerState (Move : FGoKartMove)
    (c : UGoKartReplicationComponent) : UGoKartReplicationComponent :=
  match c.MovementComponent with
  | none => c
  | some mc =>
    let NewState : FGoKartState :=
      { LastMove := Move, Transform := c.OwnerTransform, Velocity := mc.Velocity }
    { c with ServerState := NewState }

/-- `UGoKartReplicationComponent::Server_SendMove_Implementation`. `FloatAdd` is the
addition of `ClientSimulatedTime += Move.DeltaTime`. -/
def Server_SendMove_Implementation (FloatAdd : ℚ → ℚ → ℚ)
    (SimulateMove : FGoKartMove → FSimulatorState → FSimulatorState) (Move : FGoKartMove)
    (c : UGoKartReplicationComponent) : UGoKartReplicationComponent :=
  match c.MovementComponent with
  | none => c
  | some _ =>
    let c1 : UGoKartReplicationComponent :=
      { c with ClientSimulatedTime := FloatAdd c.ClientSimulatedTime Move.DeltaTime }
    let c2 := MovementComponent_SimulateMove SimulateMove Move c1
    UpdateServerState Move c2

/-- Modelled from the spec: the receiving side of the `Server_SendMove` remote call
(`UFUNCTION(Server, Reliable, WithValidation)`, whose dispatch lives in the generated
`GoKartReplicationComponent.gen.cpp`), section 4.2 `AcceptMove`: validate first; run the
implementation only on acceptance; a rejected move is dropped. -/
def Server_SendMove_Receive (FloatAdd : ℚ → ℚ → ℚ)
    (SimulateMove : FGoKartMove → FSimulatorState → FSimulatorState) (Move : FGoKartMove)
    (c : UGoKartReplicationComponent) : UGoKartReplicationComponent :=
  let r := Server_SendMove_Validate FloatAdd Move c
  if r.1 then Server_SendMove_Implementation FloatAdd SimulateMove Move r.2 else r.2

/-- The sending side of the `Server_SendMove` remote call: the move is handed to the
transport. -/
def Server_SendMove (Move : FGoKartMove)
    (c : UGoKartReplicationComponent) : UGoKartReplicationComponent :=
  { c with SentMoves := c.SentMoves ++ [Move] }

/-! ## Role dispatch (`SetupMove`) -/

/-- The three branches of `SetupMove`. -/
inductive SetupMoveBranch where
  | ControllingClientSend
  | ServerAuthorityUpdate
  | RemoteObserverTick
deriving DecidableEq

/-- The `if` / `else if` / `else if` chain of `SetupMove`: which branch the owner role and
the locally-controlled flag select, `none` when every condition is false. -/
def SetupMove.branch (OwnerRole : ENetRole) (IsLocallyControlled : Bool) :
    Option SetupMoveBranch :=
  if OwnerRole = ROLE_AutonomousProxy then some SetupMoveBranch.ControllingClientSend
  else if IsLocallyControlled then some SetupMoveBranch.ServerAuthorityUpdate
  else if OwnerRole = ROLE_SimulatedProxy then some SetupMoveBranch.RemoteObserverTick
  else none

/-- `UGoKartReplicationComponent::SetupMove`. -/
def SetupMove (FloatAdd : ℚ → ℚ → ℚ) (Slerp : FQuat → FQuat → ℚ → FQuat) (DeltaTime : ℚ)
    (c : UGoKartReplicationComponent) : UGoKartReplicationComponent :=
  match c.MovementComponent with
  | none => c
  | some mc =>
    let LastMove : FGoKartMove := mc.LastMove
    match SetupMove.branch c.OwnerRole c.OwnerIsLocallyControlled with
    | some SetupMoveBranch.ControllingClientSend =>
      Server_SendMove LastMove
        { c with UnacknowledgedMoves := c.UnacknowledgedMoves ++ [LastMove] }
    | some SetupMoveBranch.ServerAuthorityUpdate => UpdateServerState LastMove c
    | some SetupMoveBranch.RemoteObserverTick => ClientTick FloatAdd Slerp DeltaTime c
    | none => c

/-! ## Replication callbacks (`OnRep_ReplicatedServerState`) -/

/-- `UGoKartReplicationComponent::SimulatedProxy_OnRep_ReplicatedServerState`. -/
def SimulatedProxy_OnRep_ReplicatedServerState
    (c : UGoKartReplicationComponent) : UGoKartReplicationComponent :=
  match c.MovementComponent with
  | none => c
  | some mc =>
    match c.MeshOffsetRoot with
    | none => c
    | some root =>
      { c with
        ClientTimeBetweenLastUpdate := c.ClientTimeSinceUpdate
        ClientTimeSinceUpdate := 0
        ClientStartTransform :=
          (c.ClientStartTransform.SetLocation root.WorldLocation).SetRotation
            root.WorldRotation
        ClientStartVelocity := mc.Velocity
        OwnerTransform := c.ServerState.Transform }

/-- The replay loop of `AutonomousProxy_OnRep_ReplicatedServerState`:
`MovementComponent->SimulateMove(Move)` for each move of the buffer, in order. -/
def ReplayMoves (SimulateMove : FGoKartMove → FSimulatorState → FSimulatorState)
    (Moves : List FGoKartMove)
    (c : UGoKartReplicationComponent) : UGoKartReplicationComponent :=
  Moves.foldl (fun c Move => MovementComponent_SimulateMove SimulateMove Move c) c

/-- `UGoKartReplicationComponent::AutonomousProxy_OnRep_ReplicatedServerState`. -/
def AutonomousProxy_OnRep_ReplicatedServerState
    (SimulateMove : FGoKartMove → FSimulatorState → FSimulatorState)
    (c : UGoKartReplicationComponent) : UGoKartReplicationComponent :=
  match c.MovementComponent with
  | none => c
  | some mc =>
    let c1 : UGoKartReplicationComponent := { c with OwnerTransform := c.ServerState.Transform }
    let c2 : UGoKartReplicationComponent :=
      { c1 with MovementComponent := some { mc with Velocity := c1.ServerState.Velocity } }
    let c3 := ClearAcknowledgedMoves c2.ServerState.LastMove c2
    ReplayMoves SimulateMove c3.UnacknowledgedMoves c3

/-- `UGoKartReplicationComponent::OnRep_ReplicatedServerState`. -/
def OnRep_ReplicatedServerState
    (SimulateMove : FGoKartMove → FSimulatorState → FSimulatorState)
    (c : UGoKartReplicationComponent) : UGoKartReplicationComponent :=
  match c.OwnerRole with
  | ROLE_AutonomousProxy => AutonomousProxy_OnRep_ReplicatedServerState SimulateMove c
  | ROLE_SimulatedProxy => SimulatedProxy_OnRep_ReplicatedServerState c
  | _ => c

/-! ## Runs of the server authority -/

/-- A run of the server: each event `(T, Move)` is one delivery of the `Server_SendMove`
remote call while the world clock `GetWorld()->TimeSeconds` reads `T`. -/
def ServerRun (FloatAdd : ℚ → ℚ → ℚ)
    (SimulateMove : FGoKartMove → FSimulatorState → FSimulatorState) :
    List (ℚ × FGoKartMove) → UGoKartReplicationComponent → UGoKartReplicationComponent
  | [], c => c
  | (T, Move) :: rest, c =>
    ServerRun FloatAdd SimulateMove rest
      (Server_SendMove_Receive FloatAdd SimulateMove Move { c with TimeSeconds := T })

/-- The moves of a server run that pass `Server_SendMove_Validate`, in order of arrival. -/
def AcceptedMoves (FloatAdd : ℚ → ℚ → ℚ)
    (SimulateMove : FGoKartMove → FSimulatorState → FSimulatorState) :
    List (ℚ × FGoKartMove) → UGoKartReplicationComponent → List FGoKartMove
  | [], _ => []
  | (T, Move) :: rest, c =>
    let c0 : UGoKartReplicationComponent := { c with TimeSeconds := T }
    let tail : List FGoKartMove :=
      AcceptedMoves FloatAdd SimulateMove rest
        (Server_SendMove_Receive FloatAdd SimulateMove Move c0)
    if (Server_SendMove_Validate FloatAdd Move c0).1 then Move :: tail else tail

/-- The value `ClientSimulatedTime` reaches from `t0` when the `DeltaTime` of each move of
`Moves` is added to it in order with `FloatAdd`. -/
def AccumulateDeltaTime (FloatAdd : ℚ → ℚ → ℚ) (Moves : List FGoKartMove) (t0 : ℚ) : ℚ :=
  Moves.foldl (fun t Move => FloatAdd t Move.DeltaTime) t0

/-! ## Executing a sequence of moves on the simulator -/

/-- The simulator state reached from `s0` by `SimulateMove` on each move of `Moves`, in
order. -/
def ExecuteMoves (SimulateMove : FGoKartMove → FSimulatorState → FSimulatorState)
    (Moves : List FGoKartMove) (s0 : FSimulatorState) : FSimulatorState :=
  Moves.foldl (fun s Move => SimulateMove Move s) s0

/-! ## Consecutive observer ticks -/

/-- The component after consecutive `ClientTick` calls with the given `DeltaTime` values, in
order, no replication callback in between. -/
def ClientTicks (FloatAdd : ℚ → ℚ → ℚ) (Slerp : FQuat → FQuat → ℚ → FQuat)
    (DeltaTimes : List ℚ) (c : UGoKartReplicationComponent) : UGoKartReplicationComponent :=
  DeltaTimes.foldl (fun c DeltaTime => ClientTick FloatAdd Slerp DeltaTime c) c

/-! ## Concrete data used to exercise the definitions -/

namespace Sample

/-- A full-throttle, straight-ahead move with the given time step and time stamp. -/
def move (DeltaTime TimeStamp : ℚ) : FGoKartMove :=
  { Throttle := 1, SteeringThrow := 0, DeltaTime := DeltaTime, TimeStamp := TimeStamp }

/-- The origin. -/
def origin : FVector := ⟨0, 0, 0⟩

/-- The identity transform. -/
def identity : FTransform :=
  { Rotation := ⟨0, 0, 0, 1⟩, Translation := origin, Scale3D := ⟨1, 1, 1⟩ }

/-- A kart at rest at the origin with both collaborators wired, an empty buffer, all
timers at zero and the world clock at one second. -/
def kart : UGoKartReplicationComponent :=
  { ServerState := { LastMove := move 0 0, Transform := identity, Velocity := origin }
    MeshOffsetRoot := some { WorldLocation := origin, WorldRotation := ⟨0, 0, 0, 1⟩ }
    MovementComponent := some { Velocity := origin, LastMove := move 0 0 }
    UnacknowledgedMoves := []
    ClientStartTransform := identity
    ClientTimeSinceUpdate := 0
    ClientTimeBetweenLastUpdate := 0
    ClientStartVelocity := origin
    ClientSimulatedTime := 0
    OwnerRole := ROLE_Authority
    OwnerIsLocallyControlled := false
    OwnerTransform := identity
    TimeSeconds := 1
    SentMoves := []
    OutputLog := [] }

/-- A simulator step: the throttle accelerates the kart along `X` for `DeltaTime`, then
the kart advances by the new velocity for `DeltaTime`. -/
def SimulateMove (Move : FGoKartMove) (s : FSimulatorState) : FSimulatorState :=
  let v : FVector := s.Velocity + (Move.Throttle * Move.DeltaTime) * (⟨1, 0, 0⟩ : FVector)
  { Transform := s.Transform.SetLocation (s.Transform.GetLocation + v * Move.DeltaTime)
    Velocity := v }

/-- A stand-in for `FQuat::Slerp`: component-wise linear blend of the two rotations. -/
def Slerp (q1 q2 : FQuat) (t : ℚ) : FQuat :=
  ⟨q1.X + t * (q2.X - q1.X), q1.Y + t * (q2.Y - q1.Y), q1.Z + t * (q2.Z - q1.Z),
    q1.W + t * (q2.W - q1.W)⟩

/-- The buffer of the pruning scenario: moves stamped `0.0`, `0.1` and `0.2`. -/
def buffer : List FGoKartMove := [move (1 / 10) 0, move (1 / 10) (1 / 10), move (1 / 10) (2 / 10)]

/-- The server's copy of a kart driven by a remote client: role `Authority`, not locally
controlled, the actor at `X = 5` while `ServerState` still holds the origin. -/
def remoteKart : UGoKartReplicationComponent :=
  { kart with OwnerTransform := identity.SetLocation ⟨5, 0, 0⟩ }

/-- A controlling client that has mispredicted: the buffer holds the three scenario moves,
the server acknowledges the move stamped `0.1` with the state reached by the first two
moves from rest at the origin, and the local simulator has drifted elsewhere. -/
def client : UGoKartReplicationComponent :=
  { kart with
    OwnerRole := ROLE_AutonomousProxy
    OwnerIsLocallyControlled := true
    UnacknowledgedMoves := buffer
    ServerState :=
      { LastMove := move (1 / 10) (1 / 10)
        Transform := identity.SetLocation ⟨3 / 100, 0, 0⟩
        Velocity := ⟨2 / 10, 0, 0⟩ }
    OwnerTransform := identity.SetLocation ⟨1, 0, 0⟩
    MovementComponent := some { Velocity := ⟨1, 0, 0⟩, LastMove := move (1 / 10) (2 / 10) } }

/-- A remote observer `ClientTimeSinceUpdate` seconds after a snapshot, the last two
snapshots half a second apart: it started at the origin moving at `1` along `X`, the
server state is at `X = 100` moving at `3`. -/
def observer (ClientTimeSinceUpdate : ℚ) : UGoKartReplicationComponent :=
  { kart with
    OwnerRole := ROLE_SimulatedProxy
    ClientTimeSinceUpdate := ClientTimeSinceUpdate
    ClientTimeBetweenLastUpdate := 1 / 2
    ClientStartTransform := identity
    ClientStartVelocity := ⟨1, 0, 0⟩
    ServerState :=
      { LastMove := move (1 / 10) 0
        Transform := identity.SetLocation ⟨100, 0, 0⟩
        Velocity := ⟨3, 0, 0⟩ } }

/-- A remote observer halfway between two snapshots (`LerpRatio = 1 / 2`) whose start
velocity equals the server velocity, `3` along `X`, while the straight line from the origin
to `X = 100` over the interval would need `100 / 50 = 2`. -/
def coasting : UGoKartReplicationComponent :=
  { observer (1 / 4) with ClientStartVelocity := ⟨3, 0, 0⟩ }

/-- A kart the server itself drives (role `Authority`, locally controlled), moving at `1`
along `X`, whose movement component has just produced `LastMove`; the clock reads one
second and nothing has been accepted yet. -/
def serverKart (LastMove : FGoKartMove) : UGoKartReplicationComponent :=
  { kart with
    OwnerIsLocallyControlled := true
    MovementComponent := some { Velocity := ⟨1, 0, 0⟩, LastMove := LastMove } }

/-- The `float` literal `0.1f`: the 32-bit float nearest to `1 / 10`. -/
def tenth : ℚ := 13421773 / 134217728

/-- The 32-bit float nearest to `1 / 60`, the time step of a 60 Hz tick. -/
def sixtieth : ℚ := 8947849 / 536870912

end Sample

/-! ## Lemmas on the vector operations -/

namespace FVector

@[simp] theorem add_X (a b : FVector) : (a + b).X = a.X + b.X := rfl
@[simp] theorem add_Y (a b : FVector) : (a + b).Y = a.Y + b.Y := rfl
@[simp] theorem add_Z (a b : FVector) : (a + b).Z = a.Z + b.Z := rfl
@[simp] theorem sub_X (a b : FVector) : (a - b).X = a.X - b.X := rfl
@[simp] theorem sub_Y (a b : FVector) : (a - b).Y = a.Y - b.Y := rfl
@[simp] theorem sub_Z (a b : FVector) : (a - b).Z = a.Z - b.Z := rfl
@[simp] theorem smul_X (k : ℚ) (a : FVector) : (k * a).X = k * a.X := rfl
@[simp] theorem smul_Y (k : ℚ) (a : FVector) : (k * a).Y = k * a.Y := rfl
@[simp] theorem smul_Z (k : ℚ) (a : FVector) : (k * a).Z = k * a.Z := rfl
@[simp] theorem muls_X (a : FVector) (k : ℚ) : (a * k).X = k * a.X := rfl
@[simp] theorem muls_Y (a : FVector) (k : ℚ) : (a * k).Y = k * a.Y := rfl
@[simp] theorem muls_Z (a : FVector) (k : ℚ) : (a * k).Z = k * a.Z := rfl
@[simp] theorem div_X (a : FVector) (k : ℚ) : (a / k).X = a.X / k := rfl
@[simp] theorem div_Y (a : FVector) (k : ℚ) : (a / k).Y = a.Y / k := rfl
@[simp] theorem div_Z (a : FVector) (k : ℚ) : (a / k).Z = a.Z / k := rfl

theorem add_def (a b : FVector) : a + b = ⟨a.X + b.X, a.Y + b.Y, a.Z + b.Z⟩ := rfl
theorem sub_def (a b : FVector) : a - b = ⟨a.X - b.X, a.Y - b.Y, a.Z - b.Z⟩ := rfl
theorem smul_def (k : ℚ) (a : FVector) : k * a = ⟨k * a.X, k * a.Y, k * a.Z⟩ := rfl
theorem muls_def (a : FVector) (k : ℚ) : a * k = ⟨k * a.X, k * a.Y, k * a.Z⟩ := rfl
theorem div_def (a : FVector) (k : ℚ) : a / k = ⟨a.X / k, a.Y / k, a.Z / k⟩ := rfl

end FVector

/-! ## Lemmas on the move buffer -/

/-- The loop of `ClearAcknowledgedMoves`, started from any `NewMoves`, appends the moves
whose time stamp is strictly greater than the acknowledged one, in order. -/
theorem ClearAcknowledgedMoves_foldl_loopBody (a : FGoKartMove) (l acc : List FGoKartMove) :
    l.foldl (ClearAcknowledgedMoves.loopBody a) acc
      = acc ++ l.filter (fun m => decide (m.TimeStamp > a.TimeStamp)) := by
  induction l generalizing acc with
  | nil => simp
  | cons m l ih =>
    by_cases h : m.TimeStamp > a.TimeStamp
    · simp [List.foldl_cons, ClearAcknowledgedMoves.loopBody, h, ih]
    · simp [List.foldl_cons, ClearAcknowledgedMoves.loopBody, h, ih]

/-- The buffer left by `ClearAcknowledgedMoves` is the filter of the old buffer. -/
theorem ClearAcknowledgedMoves_buffer_eq (a : FGoKartMove) (c : UGoKartReplicationComponent) :
    (ClearAcknowledgedMoves a c).UnacknowledgedMoves
      = c.UnacknowledgedMoves.filter (fun m => decide (m.TimeStamp > a.TimeStamp)) := by
  simp [ClearAcknowledgedMoves, ClearAcknowledgedMoves_foldl_loopBody]

/-! ## Pruning of the unacknowledged-move buffer -/

/-- C1: after `ClearAcknowledgedMoves a` the buffer is exactly the sub-list of the old
buffer made of the moves with `TimeStamp > a.TimeStamp`, in their original order; every
move left has a strictly greater time stamp, and moves stamped exactly `a.TimeStamp` are
gone. -/
theorem ClearAcknowledgedMoves_keeps_exactly_newer (a : FGoKartMove)
    (c : UGoKartReplicationComponent) :
    (ClearAcknowledgedMoves a c).UnacknowledgedMoves
        = c.UnacknowledgedMoves.filter (fun m => decide (m.TimeStamp > a.TimeStamp))
      ∧ List.Sublist (ClearAcknowledgedMoves a c).UnacknowledgedMoves c.UnacknowledgedMoves
      ∧ (∀ m ∈ (ClearAcknowledgedMoves a c).UnacknowledgedMoves, m.TimeStamp > a.TimeStamp)
      ∧ (∀ m, m.TimeStamp = a.TimeStamp →
          m ∉ (ClearAcknowledgedMoves a c).UnacknowledgedMoves) := by
  have hb := ClearAcknowledgedMoves_buffer_eq a c
  refine ⟨hb, ?_, ?_, ?_⟩
  · rw [hb]; exact List.filter_sublist _
  · intro m hm
    rw [hb, List.mem_filter] at hm
    simpa using hm.2
  · intro m hts hm
    rw [hb, List.mem_filter] at hm
    have h2 : m.TimeStamp > a.TimeStamp := by simpa using hm.2
    rw [hts] at h2
    exact lt_irrefl _ h2

/-- C1, the scenario of the specification: the buffer stamped `[0.0, 0.1, 0.2]` pruned
with the acknowledged stamp `0.1` holds exactly the move stamped `0.2`. -/
theorem ClearAcknowledgedMoves_keeps_exactly_newer_witness :
    (ClearAcknowledgedMoves (Sample.move (1 / 10) (1 / 10))
        { Sample.kart with UnacknowledgedMoves := Sample.buffer }).UnacknowledgedMoves
      = [Sample.move (1 / 10) (2 / 10)] :=
  (ClearAcknowledgedMoves_keeps_exactly_newer (Sample.move (1 / 10) (1 / 10))
      { Sample.kart with UnacknowledgedMoves := Sample.buffer }).1.trans
    (by simp [Sample.buffer, Sample.move, List.filter]; norm_num)

/-- C2: `ClearAcknowledgedMoves a` never makes the buffer longer, and every move of the
old buffer with `TimeStamp > a.TimeStamp` is still in the buffer, as many times as
before. -/
theorem ClearAcknowledgedMoves_monotone (a : FGoKartMove) (c : UGoKartReplicationComponent) :
    (ClearAcknowledgedMoves a c).UnacknowledgedMoves.length ≤ c.UnacknowledgedMoves.length
      ∧ (∀ m ∈ c.UnacknowledgedMoves, m.TimeStamp > a.TimeStamp →
          m ∈ (ClearAcknowledgedMoves a c).UnacknowledgedMoves
            ∧ (ClearAcknowledgedMoves a c).UnacknowledgedMoves.count m
                = c.UnacknowledgedMoves.count m) := by
  have hb := ClearAcknowledgedMoves_buffer_eq a c
  refine ⟨?_, ?_⟩
  · rw [hb]; exact List.length_filter_le _ _
  · intro m hm hts
    rw [hb]
    refine ⟨List.mem_filter.mpr ⟨hm, by simpa using hts⟩, ?_⟩
    exact List.count_filter (by simpa using hts)

/-- C2 at the scenario buffer `[0.0, 0.1, 0.2]` with acknowledged stamp `0.1`: the result
is no longer than three moves and the move stamped `0.2` is kept exactly once. -/
theorem ClearAcknowledgedMoves_monotone_witness :
    (ClearAcknowledgedMoves (Sample.move (1 / 10) (1 / 10))
        { Sample.kart with UnacknowledgedMoves := Sample.buffer }).UnacknowledgedMoves.length ≤ 3
      ∧ (ClearAcknowledgedMoves (Sample.move (1 / 10) (1 / 10))
          { Sample.kart with UnacknowledgedMoves := Sample.buffer }).UnacknowledgedMoves.count
            (Sample.move (1 / 10) (2 / 10)) = 1 :=
  ⟨(ClearAcknowledgedMoves_monotone (Sample.move (1 / 10) (1 / 10))
      { Sample.kart with UnacknowledgedMoves := Sample.buffer }).1,
   ((ClearAcknowledgedMoves_monotone (Sample.move (1 / 10) (1 / 10))
      { Sample.kart with UnacknowledgedMoves := Sample.buffer }).2
      (Sample.move (1 / 10) (2 / 10)) (by simp [Sample.buffer])
      (by simp [Sample.move]; norm_num)).2.trans
    (by simp [Sample.buffer, Sample.move, List.count_cons]; norm_num)⟩

/-! ## Lemmas on the float arithmetic -/

@[simp] theorem ExactAdd_apply (a b : ℚ) : ExactAdd a b = a + b := rfl

/-- The constant `KINDA_SMALL_NUMBER` is the 32-bit float nearest to `1 / 10000`, and it
lies below `1 / 10000`. -/
theorem KINDA_SMALL_NUMBER_eq_round :
    KINDA_SMALL_NUMBER = Float32.round (1 / 10000) ∧ KINDA_SMALL_NUMBER < 1 / 10000 := by
  decide!

/-- Reference values of the rounding: the literals `0.1f` and `1 / 60`, a tie above `2 ^ 24`
going to the even neighbour in both directions, a sum absorbed at `4096`, the 60 Hz step
added at `4096`, and the smallest subnormal. -/
theorem Float32_round_reference_values :
    Float32.round (1 / 10) = Sample.tenth
      ∧ Float32.round (1 / 60) = Sample.sixtieth
      ∧ Float32.round 16777217 = 16777216
      ∧ Float32.round 16777219 = 16777220
      ∧ Float32.round (-16777217) = -16777216
      ∧ Float32.add 4096 (1 / 4096) = 4096
      ∧ Float32.add 4096 Sample.sixtieth = 4096 + 17 / 1024
      ∧ Float32.round (3 / 2 ^ 150) = 1 / 2 ^ 148
      ∧ Float32.round (1 / 2 ^ 150) = 0 := by
  decide!

/-- The constant `KINDA_SMALL_NUMBER` is positive. -/
theorem KINDA_SMALL_NUMBER_pos : 0 < KINDA_SMALL_NUMBER := by
  norm_num [KINDA_SMALL_NUMBER]

/-! ## Server-side validation and acceptance -/

/-- C3: with arithmetic taken as exact, `Server_SendMove_Validate` returns `false` exactly
when the move is not valid or `ClientSimulatedTime + DeltaTime >= TimeSeconds`, and `true`
exactly when the move is valid and `ClientSimulatedTime + DeltaTime < TimeSeconds`. -/
theorem Server_SendMove_Validate_rejects_iff (Move : FGoKartMove)
    (c : UGoKartReplicationComponent) :
    ((Server_SendMove_Validate ExactAdd Move c).1 = false ↔
        (Move.IsValid = false ∨ c.ClientSimulatedTime + Move.DeltaTime ≥ c.TimeSeconds))
      ∧ ((Server_SendMove_Validate ExactAdd Move c).1 = true ↔
        (Move.IsValid = true ∧ c.ClientSimulatedTime + Move.DeltaTime < c.TimeSeconds)) := by
  unfold Server_SendMove_Validate
  by_cases ht : c.ClientSimulatedTime + Move.DeltaTime < c.TimeSeconds
  · by_cases hv : Move.IsValid = true
    · simp [ht, hv]
    · simp [ht, hv, not_le.mpr ht]
  · simp [ht, not_lt.mp ht]

/-- `Server_SendMove_Validate` changes nothing but the output log, whatever it returns. -/
theorem Server_SendMove_Validate_only_logs (FloatAdd : ℚ → ℚ → ℚ) (Move : FGoKartMove)
    (c : UGoKartReplicationComponent) :
    (Server_SendMove_Validate FloatAdd Move c).2
      = { c with OutputLog := (Server_SendMove_Validate FloatAdd Move c).2.OutputLog } := by
  unfold Server_SendMove_Validate
  by_cases ht : FloatAdd c.ClientSimulatedTime Move.DeltaTime < c.TimeSeconds
  · by_cases hv : Move.IsValid = true
    · simp [ht, hv]
    · simp [ht, hv]
  · simp [ht]

/-- C4: when `Server_SendMove_Validate` rejects the move, receiving it leaves
`ClientSimulatedTime`, `ServerState`, `UnacknowledgedMoves` and the simulator state as they
were; the component after the call differs from the one before at most in the output log.
This holds for the float addition as well as for exact addition. -/
theorem Server_SendMove_Receive_rejected_unchanged (FloatAdd : ℚ → ℚ → ℚ)
    (SimulateMove : FGoKartMove → FSimulatorState → FSimulatorState) (Move : FGoKartMove)
    (c : UGoKartReplicationComponent)
    (hrej : (Server_SendMove_Validate FloatAdd Move c).1 = false) :
    (Server_SendMove_Receive FloatAdd SimulateMove Move c).ClientSimulatedTime
        = c.ClientSimulatedTime
      ∧ (Server_SendMove_Receive FloatAdd SimulateMove Move c).ServerState = c.ServerState
      ∧ (Server_SendMove_Receive FloatAdd SimulateMove Move c).UnacknowledgedMoves
          = c.UnacknowledgedMoves
      ∧ SimulatorState (Server_SendMove_Receive FloatAdd SimulateMove Move c)
          = SimulatorState c
      ∧ Server_SendMove_Receive FloatAdd SimulateMove Move c
          = { c with
              OutputLog :=
                (Server_SendMove_Receive FloatAdd SimulateMove Move c).OutputLog } := by
  have hr : Server_SendMove_Receive FloatAdd SimulateMove Move c
      = (Server_SendMove_Validate FloatAdd Move c).2 := by
    simp [Server_SendMove_Receive, hrej]
  have hs := Server_SendMove_Validate_only_logs FloatAdd Move c
  rw [hr]
  refine ⟨?_, ?_, ?_, ?_, hs⟩
  · rw [hs]
  · rw [hs]
  · rw [hs]
  · rw [hs]; rfl

/-- C4 at a concrete rejection: with the clock at one second and nothing simulated yet, a
move claiming two seconds is rejected, under float addition, and the kart's simulated time
stays zero. -/
theorem Server_SendMove_Receive_rejected_unchanged_witness :
    (Server_SendMove_Validate Float32.add (Sample.move 2 0) Sample.kart).1 = false
      ∧ (Server_SendMove_Receive Float32.add Sample.SimulateMove (Sample.move 2 0)
          Sample.kart).ClientSimulatedTime = 0 :=
  have h : (Server_SendMove_Validate Float32.add (Sample.move 2 0) Sample.kart).1 = false := by
    decide!
  ⟨h, (Server_SendMove_Receive_rejected_unchanged Float32.add Sample.SimulateMove
      (Sample.move 2 0) Sample.kart h).1⟩

/-- The component left by `Server_SendMove_Implementation` when the movement component is
wired, written out field by field. -/
theorem Server_SendMove_Implementation_eq_of_wired (FloatAdd : ℚ → ℚ → ℚ)
    (SimulateMove : FGoKartMove → FSimulatorState → FSimulatorState) (Move : FGoKartMove)
    (c : UGoKartReplicationComponent) (mc : UGoKartMovementComponent)
    (hmc : c.MovementComponent = some mc) :
    Server_SendMove_Implementation FloatAdd SimulateMove Move c
      = { c with
          ClientSimulatedTime := FloatAdd c.ClientSimulatedTime Move.DeltaTime
          OwnerTransform :=
            (SimulateMove Move
              { Transform := c.OwnerTransform, Velocity := mc.Velocity }).Transform
          MovementComponent := some
            { mc with Velocity :=
                (SimulateMove Move
                  { Transform := c.OwnerTransform, Velocity := mc.Velocity }).Velocity }
          ServerState :=
            { LastMove := Move
              Transform :=
                (SimulateMove Move
                  { Transform := c.OwnerTransform, Velocity := mc.Velocity }).Transform
              Velocity :=
                (SimulateMove Move
                  { Transform := c.OwnerTransform, Velocity := mc.Velocity }).Velocity } } := by
  simp [Server_SendMove_Implementation, MovementComponent_SimulateMove, UpdateServerState, hmc]

/-- `Server_SendMove_Receive` keeps the movement component wired. -/
theorem Server_SendMove_Receive_wired (FloatAdd : ℚ → ℚ → ℚ)
    (SimulateMove : FGoKartMove → FSimulatorState → FSimulatorState) (Move : FGoKartMove)
    (c : UGoKartReplicationComponent) (mc : UGoKartMovementComponent)
    (hmc : c.MovementComponent = some mc) :
    ∃ mc1, (Server_SendMove_Receive FloatAdd SimulateMove Move c).MovementComponent
      = some mc1 := by
  have hs := Server_SendMove_Validate_only_logs FloatAdd Move c
  have hv : (Server_SendMove_Validate FloatAdd Move c).2.MovementComponent = some mc := by
    rw [hs]; exact hmc
  unfold Server_SendMove_Receive
  by_cases h : (Server_SendMove_Validate FloatAdd Move c).1 = true
  · simp only [h, if_true]
    rw [Server_SendMove_Implementation_eq_of_wired FloatAdd SimulateMove Move _ mc hv]
    exact ⟨_, rfl⟩
  · simp only [h]
    exact ⟨mc, hv⟩

/-- The simulated time after `Server_SendMove_Receive`: the float sum with `DeltaTime` when
the move is accepted, unchanged when it is rejected. -/
theorem Server_SendMove_Receive_time (FloatAdd : ℚ → ℚ → ℚ)
    (SimulateMove : FGoKartMove → FSimulatorState → FSimulatorState) (Move : FGoKartMove)
    (c : UGoKartReplicationComponent) (mc : UGoKartMovementComponent)
    (hmc : c.MovementComponent = some mc) :
    (Server_SendMove_Receive FloatAdd SimulateMove Move c).ClientSimulatedTime
      = if (Server_SendMove_Validate FloatAdd Move c).1
        then FloatAdd c.ClientSimulatedTime Move.DeltaTime
        else c.ClientSimulatedTime := by
  have hs := Server_SendMove_Validate_only_logs FloatAdd Move c
  have hv : (Server_SendMove_Validate FloatAdd Move c).2.MovementComponent = some mc := by
    rw [hs]; exact hmc
  have ht : (Server_SendMove_Validate FloatAdd Move c).2.ClientSimulatedTime
      = c.ClientSimulatedTime := by
    rw [hs]
  unfold Server_SendMove_Receive
  by_cases h : (Server_SendMove_Validate FloatAdd Move c).1 = true
  · simp only [h, if_true]
    rw [Server_SendMove_Implementation_eq_of_wired FloatAdd SimulateMove Move _ mc hv]
    simp [ht]
  · simp only [h]
    simpa using ht

/-- Along a server run the simulated time is the accumulation, with the float addition,
of the accepted moves' `DeltaTime`. -/
theorem ServerRun_time (FloatAdd : ℚ → ℚ → ℚ)
    (SimulateMove : FGoKartMove → FSimulatorState → FSimulatorState)
    (evs : List (ℚ × FGoKartMove)) :
    ∀ (c : UGoKartReplicationComponent) (mc : UGoKartMovementComponent),
      c.MovementComponent = some mc →
      (ServerRun FloatAdd SimulateMove evs c).ClientSimulatedTime
        = AccumulateDeltaTime FloatAdd (AcceptedMoves FloatAdd SimulateMove evs c)
            c.ClientSimulatedTime := by
  induction evs with
  | nil => intro c mc _; simp [ServerRun, AcceptedMoves, AccumulateDeltaTime]
  | cons ev rest ih =>
    intro c mc hmc
    obtain ⟨T, Move⟩ := ev
    have hmc0 : ({ c with TimeSeconds := T } : UGoKartReplicationComponent).MovementComponent
        = some mc := hmc
    obtain ⟨mc1, hmc1⟩ := Server_SendMove_Receive_wired FloatAdd SimulateMove Move _ mc hmc0
    have ht := Server_SendMove_Receive_time FloatAdd SimulateMove Move _ mc hmc0
    simp only [ServerRun, AcceptedMoves]
    rw [ih _ mc1 hmc1, ht]
    by_cases h : (Server_SendMove_Validate FloatAdd Move { c with TimeSeconds := T }).1 = true
    · simp [h, AccumulateDeltaTime]
    · simp [h]

/-- With exact addition the accumulation is the start value plus the sum. -/
theorem AccumulateDeltaTime_exact (Moves : List FGoKartMove) :
    ∀ t0 : ℚ, AccumulateDeltaTime ExactAdd Moves t0
      = t0 + (Moves.map FGoKartMove.DeltaTime).sum := by
  induction Moves with
  | nil => intro t0; simp [AccumulateDeltaTime]
  | cons m rest ih =>
    intro t0
    have h := ih (t0 + m.DeltaTime)
    simp only [AccumulateDeltaTime, List.foldl_cons, ExactAdd_apply, List.map_cons,
      List.sum_cons] at h ⊢
    rw [h]
    ring

/-- C5, counterexample: with the engine's float addition the simulated time does not grow
by exactly `DeltaTime`. At `ClientSimulatedTime = 4096` an accepted 60 Hz move
(`DeltaTime` the float nearest `1 / 60`) raises it by `17 / 1024`; and after three accepted
moves of `0.1f` from `0` it is `5033165 / 16777216`, not the sum `40265319 / 134217728` of
their `DeltaTime`. -/
theorem Server_SendMove_Implementation_float_rounds :
    (Server_SendMove_Validate Float32.add (Sample.move Sample.sixtieth 0)
        { Sample.kart with ClientSimulatedTime := 4096, TimeSeconds := 5000 }).1 = true
      ∧ (Server_SendMove_Implementation Float32.add Sample.SimulateMove
          (Sample.move Sample.sixtieth 0)
          { Sample.kart with
            ClientSimulatedTime := 4096, TimeSeconds := 5000 }).ClientSimulatedTime
        = 4096 + 17 / 1024
      ∧ (Server_SendMove_Implementation Float32.add Sample.SimulateMove
          (Sample.move Sample.sixtieth 0)
          { Sample.kart with
            ClientSimulatedTime := 4096, TimeSeconds := 5000 }).ClientSimulatedTime
        ≠ 4096 + (Sample.move Sample.sixtieth 0).DeltaTime
      ∧ AcceptedMoves Float32.add Sample.SimulateMove
          [(1, Sample.move Sample.tenth 0), (1, Sample.move Sample.tenth Sample.tenth),
            (1, Sample.move Sample.tenth (2 * Sample.tenth))] Sample.kart
        = [Sample.move Sample.tenth 0, Sample.move Sample.tenth Sample.tenth,
            Sample.move Sample.tenth (2 * Sample.tenth)]
      ∧ (ServerRun Float32.add Sample.SimulateMove
          [(1, Sample.move Sample.tenth 0), (1, Sample.move Sample.tenth Sample.tenth),
            (1, Sample.move Sample.tenth (2 * Sample.tenth))]
          Sample.kart).ClientSimulatedTime = 5033165 / 16777216
      ∧ Sample.tenth + Sample.tenth + Sample.tenth = 40265319 / 134217728
      ∧ (ServerRun Float32.add Sample.SimulateMove
          [(1, Sample.move Sample.tenth 0), (1, Sample.move Sample.tenth Sample.tenth),
            (1, Sample.move Sample.tenth (2 * Sample.tenth))]
          Sample.kart).ClientSimulatedTime
        ≠ Sample.tenth + Sample.tenth + Sample.tenth := by
  decide!

/-- C5, amended: with the movement component wired, `Server_SendMove_Implementation Move`
replaces `ClientSimulatedTime` by the float sum of `ClientSimulatedTime` and
`Move.DeltaTime` (exactly `ClientSimulatedTime + Move.DeltaTime` when arithmetic is taken as
exact), runs `SimulateMove Move` on the simulator state, and leaves `ServerState` holding
`Move`, the owner's transform after the simulation and the simulator's velocity after the
simulation; an accepted move received through `Server_SendMove` does exactly this; along
any server run `ClientSimulatedTime` is the float accumulation, in order of arrival, of the
accepted moves' `DeltaTime`, and with arithmetic taken as exact a run started at
`ClientSimulatedTime = 0` ends with the sum of the accepted moves' `DeltaTime`. -/
theorem Server_SendMove_Implementation_applies_move (FloatAdd : ℚ → ℚ → ℚ)
    (SimulateMove : FGoKartMove → FSimulatorState → FSimulatorState) (Move : FGoKartMove)
    (c : UGoKartReplicationComponent) (mc : UGoKartMovementComponent)
    (hmc : c.MovementComponent = some mc) :
    (Server_SendMove_Implementation FloatAdd SimulateMove Move c).ClientSimulatedTime
        = FloatAdd c.ClientSimulatedTime Move.DeltaTime
      ∧ SimulatorState (Server_SendMove_Implementation FloatAdd SimulateMove Move c)
        = some (SimulateMove Move { Transform := c.OwnerTransform, Velocity := mc.Velocity })
      ∧ (Server_SendMove_Implementation FloatAdd SimulateMove Move c).ServerState
        = { LastMove := Move
            Transform :=
              (SimulateMove Move
                { Transform := c.OwnerTransform, Velocity := mc.Velocity }).Transform
            Velocity :=
              (SimulateMove Move
                { Transform := c.OwnerTransform, Velocity := mc.Velocity }).Velocity }
      ∧ ((Server_SendMove_Validate FloatAdd Move c).1 = true →
          Server_SendMove_Receive FloatAdd SimulateMove Move c
            = Server_SendMove_Implementation FloatAdd SimulateMove Move c)
      ∧ (∀ evs : List (ℚ × FGoKartMove),
          (ServerRun FloatAdd SimulateMove evs c).ClientSimulatedTime
            = AccumulateDeltaTime FloatAdd (AcceptedMoves FloatAdd SimulateMove evs c)
                c.ClientSimulatedTime)
      ∧ (Server_SendMove_Implementation ExactAdd SimulateMove Move c).ClientSimulatedTime
        = c.ClientSimulatedTime + Move.DeltaTime
      ∧ (∀ evs : List (ℚ × FGoKartMove), c.ClientSimulatedTime = 0 →
          (ServerRun ExactAdd SimulateMove evs c).ClientSimulatedTime
            = ((AcceptedMoves ExactAdd SimulateMove evs c).map FGoKartMove.DeltaTime).sum) := by
  have he := Server_SendMove_Implementation_eq_of_wired FloatAdd SimulateMove Move c mc hmc
  refine ⟨?_, ?_, ?_, ?_, ?_, ?_, ?_⟩
  · rw [he]
  · rw [he]; rfl
  · rw [he]
  · intro hacc
    have hc : (Server_SendMove_Validate FloatAdd Move c).2 = c := by
      unfold Server_SendMove_Validate at hacc ⊢
      by_cases ht : FloatAdd c.ClientSimulatedTime Move.DeltaTime < c.TimeSeconds
      · by_cases hv : Move.IsValid = true
        · simp [ht, hv]
        · simp [ht, hv] at hacc
      · simp [ht] at hacc
    simp [Server_SendMove_Receive, hacc, hc]
  · intro evs
    exact ServerRun_time FloatAdd SimulateMove evs c mc hmc
  · rw [Server_SendMove_Implementation_eq_of_wired ExactAdd SimulateMove Move c mc hmc]
    rfl
  · intro evs h0
    rw [ServerRun_time ExactAdd SimulateMove evs c mc hmc, AccumulateDeltaTime_exact, h0,
      zero_add]

/-- C5, amended, on the sample kart: under float addition a move of `0.1f` accepted at
clock `1` takes the simulated time from `0` to `0.1f` and receiving it is running the
implementation; with arithmetic taken as exact, a run delivering two moves of `1 / 10` and
then a two-second move, all at clock `1`, accepts the first two and ends with simulated
time `2 / 10`. -/
theorem Server_SendMove_Implementation_applies_move_witness :
    (Server_SendMove_Implementation Float32.add Sample.SimulateMove
        (Sample.move Sample.tenth 0) Sample.kart).ClientSimulatedTime = Sample.tenth
      ∧ Server_SendMove_Receive Float32.add Sample.SimulateMove (Sample.move Sample.tenth 0)
          Sample.kart
        = Server_SendMove_Implementation Float32.add Sample.SimulateMove
            (Sample.move Sample.tenth 0) Sample.kart
      ∧ (ServerRun ExactAdd Sample.SimulateMove
          [(1, Sample.move (1 / 10) 0), (1, Sample.move (1 / 10) (1 / 10)),
            (1, Sample.move 2 (2 / 10))] Sample.kart).ClientSimulatedTime = 2 / 10 :=
  ⟨((Server_SendMove_Implementation_applies_move Float32.add Sample.SimulateMove
      (Sample.move Sample.tenth 0) Sample.kart _ rfl).1).trans (by decide!),
   (Server_SendMove_Implementation_applies_move Float32.add Sample.SimulateMove
      (Sample.move Sample.tenth 0) Sample.kart _ rfl).2.2.2.1 (by decide!),
   ((Server_SendMove_Implementation_applies_move Float32.add Sample.SimulateMove
      (Sample.move Sample.tenth 0) Sample.kart _ rfl).2.2.2.2.2.2 _ rfl).trans
    (by decide!)⟩

/-! ## Reconciliation on the controlling client -/

/-- One `MovementComponent->SimulateMove` call steps the simulator state seen through the
component and leaves the buffer alone. -/
theorem MovementComponent_SimulateMove_steps
    (SimulateMove : FGoKartMove → FSimulatorState → FSimulatorState) (Move : FGoKartMove)
    (c : UGoKartReplicationComponent) (s : FSimulatorState)
    (hs : SimulatorState c = some s) :
    SimulatorState (MovementComponent_SimulateMove SimulateMove Move c)
        = some (SimulateMove Move s)
      ∧ (MovementComponent_SimulateMove SimulateMove Move c).UnacknowledgedMoves
        = c.UnacknowledgedMoves := by
  unfold SimulatorState at hs
  cases hmc : c.MovementComponent with
  | none => simp [hmc] at hs
  | some mc =>
    simp only [hmc, Option.map_some', Option.some.injEq] at hs
    subst hs
    simp [MovementComponent_SimulateMove, SimulatorState, hmc]

/-- The replay loop steps the simulator state through every move of the list, in order,
and leaves the buffer alone. -/
theorem ReplayMoves_steps
    (SimulateMove : FGoKartMove → FSimulatorState → FSimulatorState)
    (Moves : List FGoKartMove) :
    ∀ (c : UGoKartReplicationComponent) (s : FSimulatorState),
      SimulatorState c = some s →
      SimulatorState (ReplayMoves SimulateMove Moves c)
          = some (ExecuteMoves SimulateMove Moves s)
        ∧ (ReplayMoves SimulateMove Moves c).UnacknowledgedMoves = c.UnacknowledgedMoves := by
  induction Moves with
  | nil => intro c s hs; exact ⟨hs, rfl⟩
  | cons Move rest ih =>
    intro c s hs
    have h1 := MovementComponent_SimulateMove_steps SimulateMove Move c s hs
    have h2 := ih _ _ h1.1
    simp only [ReplayMoves, ExecuteMoves, List.foldl_cons] at h2 ⊢
    exact ⟨h2.1, h2.2.trans h1.2⟩

/-- A buffer in non-decreasing time-stamp order splits at any time stamp `t` into the
moves stamped at most `t` followed by the moves stamped after `t`. -/
theorem buffer_split_of_sorted (t : ℚ) (b : List FGoKartMove)
    (hb : b.Pairwise (fun m1 m2 => m1.TimeStamp ≤ m2.TimeStamp)) :
    b = b.filter (fun m => decide (m.TimeStamp ≤ t))
          ++ b.filter (fun m => decide (m.TimeStamp > t)) := by
  induction b with
  | nil => simp
  | cons m l ih =>
    rw [List.pairwise_cons] at hb
    by_cases hm : m.TimeStamp ≤ t
    · have hnot : ¬ (m.TimeStamp > t) := not_lt.mpr hm
      simp only [List.filter_cons, hm, hnot, decide_True, decide_False, if_true,
        List.cons_append]
      simp only [Bool.false_eq_true, if_false]
      exact congrArg (List.cons m) (ih hb.2)
    · have hgt : m.TimeStamp > t := not_le.mp hm
      have hall : ∀ x ∈ l, x.TimeStamp > t := fun x hx => lt_of_lt_of_le hgt (hb.1 x hx)
      have h1 : l.filter (fun m => decide (m.TimeStamp ≤ t)) = [] := by
        rw [List.filter_eq_nil_iff]
        intro x hx
        simpa using hall x hx
      have h2 : l.filter (fun m => decide (m.TimeStamp > t)) = l := by
        rw [List.filter_eq_self]
        intro x hx
        simpa using hall x hx
      simp [List.filter_cons, hm, hgt, h1, h2]

/-- C6: let the buffer be in non-decreasing time-stamp order and let `ServerState` hold
the transform and velocity reached from `s0` by executing exactly the buffered moves with
`TimeStamp <= ServerState.LastMove.TimeStamp`. Then after
`AutonomousProxy_OnRep_ReplicatedServerState` the simulator state is the one reached from
`s0` by executing the whole buffer, and `UnacknowledgedMoves` holds exactly the moves
stamped after the acknowledged one. -/
theorem AutonomousProxy_OnRep_reconciles
    (SimulateMove : FGoKartMove → FSimulatorState → FSimulatorState) (s0 : FSimulatorState)
    (c : UGoKartReplicationComponent) (mc : UGoKartMovementComponent)
    (hmc : c.MovementComponent = some mc)
    (hsorted : c.UnacknowledgedMoves.Pairwise (fun m1 m2 => m1.TimeStamp ≤ m2.TimeStamp))
    (hT : c.ServerState.Transform
      = (ExecuteMoves SimulateMove
          (c.UnacknowledgedMoves.filter
            (fun m => decide (m.TimeStamp ≤ c.ServerState.LastMove.TimeStamp))) s0).Transform)
    (hV : c.ServerState.Velocity
      = (ExecuteMoves SimulateMove
          (c.UnacknowledgedMoves.filter
            (fun m => decide (m.TimeStamp ≤ c.ServerState.LastMove.TimeStamp))) s0).Velocity) :
    SimulatorState (AutonomousProxy_OnRep_ReplicatedServerState SimulateMove c)
        = some (ExecuteMoves SimulateMove c.UnacknowledgedMoves s0)
      ∧ (AutonomousProxy_OnRep_ReplicatedServerState SimulateMove c).UnacknowledgedMoves
        = c.UnacknowledgedMoves.filter
            (fun m => decide (m.TimeStamp > c.ServerState.LastMove.TimeStamp)) := by
  have hsnap : SimulatorState
      (ClearAcknowledgedMoves c.ServerState.LastMove
        { c with
          OwnerTransform := c.ServerState.Transform
          MovementComponent := some { mc with Velocity := c.ServerState.Velocity } })
      = some (ExecuteMoves SimulateMove
          (c.UnacknowledgedMoves.filter
            (fun m => decide (m.TimeStamp ≤ c.ServerState.LastMove.TimeStamp))) s0) := by
    simp only [SimulatorState, ClearAcknowledgedMoves, Option.map_some', Option.some.injEq]
    rw [hT, hV]
  have hrep := ReplayMoves_steps SimulateMove
    (ClearAcknowledgedMoves c.ServerState.LastMove
      { c with
        OwnerTransform := c.ServerState.Transform
        MovementComponent := some { mc with Velocity := c.ServerState.Velocity } }).UnacknowledgedMoves
    _ _ hsnap
  have hbuf := ClearAcknowledgedMoves_buffer_eq c.ServerState.LastMove
    { c with
      OwnerTransform := c.ServerState.Transform
      MovementComponent := some { mc with Velocity := c.ServerState.Velocity } }
  have hrun : AutonomousProxy_OnRep_ReplicatedServerState SimulateMove c
      = ReplayMoves SimulateMove
          (ClearAcknowledgedMoves c.ServerState.LastMove
            { c with
              OwnerTransform := c.ServerState.Transform
              MovementComponent :=
                some { mc with Velocity := c.ServerState.Velocity } }).UnacknowledgedMoves
          (ClearAcknowledgedMoves c.ServerState.LastMove
            { c with
              OwnerTransform := c.ServerState.Transform
              MovementComponent := some { mc with Velocity := c.ServerState.Velocity } }) := by
    simp [AutonomousProxy_OnRep_ReplicatedServerState, hmc]
  rw [hrun]
  refine ⟨?_, hrep.2.trans hbuf⟩
  rw [hrep.1, hbuf]
  have hsplit := buffer_split_of_sorted c.ServerState.LastMove.TimeStamp
    c.UnacknowledgedMoves hsorted
  conv_rhs => rw [hsplit]
  simp only [ExecuteMoves, List.foldl_append]

/-- C6 on the scenario of the specification: the client buffered the moves stamped `0.0`,
`0.1`, `0.2`, the server acknowledges `0.1` with the state reached by the first two, and
the client's own simulator had drifted; after the callback the simulator is where the three
moves lead from rest (`X = 6 / 100`, speed `3 / 10`) and only the move stamped `0.2` is
still buffered. -/
theorem AutonomousProxy_OnRep_reconciles_witness :
    SimulatorState (AutonomousProxy_OnRep_ReplicatedServerState Sample.SimulateMove
        Sample.client)
        = some { Transform := Sample.identity.SetLocation ⟨6 / 100, 0, 0⟩
                 Velocity := ⟨3 / 10, 0, 0⟩ }
      ∧ (AutonomousProxy_OnRep_ReplicatedServerState Sample.SimulateMove
          Sample.client).UnacknowledgedMoves = [Sample.move (1 / 10) (2 / 10)] :=
  have h := AutonomousProxy_OnRep_reconciles Sample.SimulateMove
    ⟨Sample.identity, Sample.origin⟩ Sample.client _ rfl
    (by simp [Sample.client, Sample.buffer, Sample.move]; norm_num)
    (by
      simp [Sample.client, Sample.buffer, Sample.move, ExecuteMoves, Sample.SimulateMove,
        List.filter, FTransform.SetLocation, FTransform.GetLocation, Sample.identity,
        Sample.origin, FVector.add_def, FVector.smul_def, FVector.muls_def]
      norm_num)
    (by
      simp [Sample.client, Sample.buffer, Sample.move, ExecuteMoves, Sample.SimulateMove,
        List.filter, FTransform.SetLocation, FTransform.GetLocation, Sample.identity,
        Sample.origin, FVector.add_def, FVector.smul_def, FVector.muls_def]
      norm_num)
  ⟨h.1.trans (by
      simp [Sample.client, Sample.buffer, Sample.move, ExecuteMoves, Sample.SimulateMove,
        List.filter, FTransform.SetLocation, FTransform.GetLocation, Sample.identity,
        Sample.origin, FVector.add_def, FVector.smul_def, FVector.muls_def]
      norm_num),
   h.2.trans (by
      simp [Sample.client, Sample.buffer, Sample.move, List.filter]
      norm_num)⟩

/-! ## Hermite interpolation for the remote observer -/

/-- C7: `InterpolateLocation` of any spline returns exactly `StartLocation` at
`LerpRatio = 0` and exactly `TargetLocation` at `LerpRatio = 1`, whatever the two
derivatives; for the spline built by `CreateSpline` these are the location of
`ClientStartTransform` and the location of `ServerState.Transform`. -/
theorem InterpolateLocation_endpoints (s : FHermiteCubicSpline)
    (c : UGoKartReplicationComponent) :
    (s.LerpRatio = 0 → s.InterpolateLocation = s.StartLocation)
      ∧ (s.LerpRatio = 1 → s.InterpolateLocation = s.TargetLocation)
      ∧ ((CreateSpline c).LerpRatio = 0 →
          (CreateSpline c).InterpolateLocation = c.ClientStartTransform.GetLocation)
      ∧ ((CreateSpline c).LerpRatio = 1 →
          (CreateSpline c).InterpolateLocation = c.ServerState.Transform.GetLocation) := by
  have h0 : ∀ t : FHermiteCubicSpline, t.LerpRatio = 0 →
      t.InterpolateLocation = t.StartLocation := by
    intro t ht
    simp only [FHermiteCubicSpline.InterpolateLocation, FMath.CubicInterp, ht]
    ext <;> simp
  have h1 : ∀ t : FHermiteCubicSpline, t.LerpRatio = 1 →
      t.InterpolateLocation = t.TargetLocation := by
    intro t ht
    simp only [FHermiteCubicSpline.InterpolateLocation, FMath.CubicInterp, ht]
    ext <;> simp <;> ring
  exact ⟨h0 s, h1 s, h0 (CreateSpline c), h1 (CreateSpline c)⟩

/-- C7 on the sample observer: right at a snapshot (`LerpRatio = 0`) the interpolated
location is the start location, the origin; half a second later (`LerpRatio = 1`) it is the
server location `X = 100`. -/
theorem InterpolateLocation_endpoints_witness :
    (CreateSpline (Sample.observer 0)).InterpolateLocation = Sample.origin
      ∧ (CreateSpline (Sample.observer (1 / 2))).InterpolateLocation = ⟨100, 0, 0⟩ :=
  ⟨(InterpolateLocation_endpoints (CreateSpline (Sample.observer 0))
      (Sample.observer 0)).2.2.1 (by simp [CreateSpline, Sample.observer]),
   (InterpolateLocation_endpoints (CreateSpline (Sample.observer (1 / 2)))
      (Sample.observer (1 / 2))).2.2.2 (by simp [CreateSpline, Sample.observer])⟩

/-- C8: when `ClientTimeBetweenLastUpdate > 0`, the velocity `InterpDerivative` hands to
`SetVelocity`, `InterpolateDerivative() / VelocityToDerative` of the spline built by
`CreateSpline`, is exactly `ClientStartVelocity` at `LerpRatio = 0` and exactly
`ServerState.Velocity` at `LerpRatio = 1`, and that is the velocity the movement component
holds after `InterpDerivative`. -/
theorem InterpDerivative_endpoints (c target : UGoKartReplicationComponent)
    (mc : UGoKartMovementComponent) (hpos : c.ClientTimeBetweenLastUpdate > 0)
    (hmc : target.MovementComponent = some mc) :
    ((CreateSpline c).LerpRatio = 0 →
        InterpDerivative.NewVelocity (CreateSpline c) = c.ClientStartVelocity
          ∧ (InterpDerivative (CreateSpline c) target).MovementComponent
            = some { mc with Velocity := c.ClientStartVelocity })
      ∧ ((CreateSpline c).LerpRatio = 1 →
        InterpDerivative.NewVelocity (CreateSpline c) = c.ServerState.Velocity
          ∧ (InterpDerivative (CreateSpline c) target).MovementComponent
            = some { mc with Velocity := c.ServerState.Velocity }) := by
  have hk : c.ClientTimeBetweenLastUpdate * 100 ≠ 0 := by
    have : (0 : ℚ) < c.ClientTimeBetweenLastUpdate * 100 := by positivity
    exact ne_of_gt this
  have hset : ∀ v : FVector, InterpDerivative.NewVelocity (CreateSpline c) = v →
      (InterpDerivative (CreateSpline c) target).MovementComponent
        = some { mc with Velocity := v } := by
    intro v hv
    simp [InterpDerivative, hmc, hv]
  have h0 : (CreateSpline c).LerpRatio = 0 →
      InterpDerivative.NewVelocity (CreateSpline c) = c.ClientStartVelocity := by
    intro hr
    simp only [InterpDerivative.NewVelocity, FHermiteCubicSpline.InterpolateDerivative,
      FMath.CubicInterpDerivative, hr]
    simp only [CreateSpline]
    ext <;> simp <;> field_simp
  have h1 : (CreateSpline c).LerpRatio = 1 →
      InterpDerivative.NewVelocity (CreateSpline c) = c.ServerState.Velocity := by
    intro hr
    simp only [InterpDerivative.NewVelocity, FHermiteCubicSpline.InterpolateDerivative,
      FMath.CubicInterpDerivative, hr]
    simp only [CreateSpline]
    ext <;> simp <;> field_simp <;> ring
  exact ⟨fun hr => ⟨h0 hr, hset _ (h0 hr)⟩, fun hr => ⟨h1 hr, hset _ (h1 hr)⟩⟩

/-- C8 on the sample observer (snapshots half a second apart): at `LerpRatio = 0` the
velocity written is the start velocity `1` along `X`, at `LerpRatio = 1` it is the server
velocity `3` along `X`. -/
theorem InterpDerivative_endpoints_witness :
    InterpDerivative.NewVelocity (CreateSpline (Sample.observer 0)) = ⟨1, 0, 0⟩
      ∧ InterpDerivative.NewVelocity (CreateSpline (Sample.observer (1 / 2))) = ⟨3, 0, 0⟩ :=
  ⟨((InterpDerivative_endpoints (Sample.observer 0) (Sample.observer 0) _
      (by simp [Sample.observer]) rfl).1 (by simp [CreateSpline, Sample.observer])).1,
   ((InterpDerivative_endpoints (Sample.observer (1 / 2)) (Sample.observer (1 / 2)) _
      (by simp [Sample.observer]) rfl).2 (by simp [CreateSpline, Sample.observer])).1⟩

/-- C9, counterexample: with the engine's float addition the timer does not grow by
`DeltaTime`. On a kart whose snapshot interval is zero (so the guard returns) and whose
`ClientTimeSinceUpdate` is `4096`, a 60 Hz tick (`DeltaTime` the float nearest `1 / 60`)
raises the timer by `17 / 1024`. -/
theorem ClientTick_timer_float_rounds :
    ({ Sample.kart with
        ClientTimeSinceUpdate := 4096 } : UGoKartReplicationComponent).ClientTimeBetweenLastUpdate
        < KINDA_SMALL_NUMBER
      ∧ (ClientTick Float32.add Sample.Slerp Sample.sixtieth
          { Sample.kart with ClientTimeSinceUpdate := 4096 }).ClientTimeSinceUpdate
        = 4096 + 17 / 1024
      ∧ (ClientTick Float32.add Sample.Slerp Sample.sixtieth
          { Sample.kart with ClientTimeSinceUpdate := 4096 }).ClientTimeSinceUpdate
        ≠ 4096 + Sample.sixtieth := by
  decide!

/-- C9, amended: when `ClientTimeBetweenLastUpdate < KINDA_SMALL_NUMBER` (the float
`1.e-4f`; zero and negative values included), `ClientTick DeltaTime` builds no spline and
changes exactly one field, `ClientTimeSinceUpdate`, which becomes the float sum of
`ClientTimeSinceUpdate` and `DeltaTime` (it grows by exactly `DeltaTime` when arithmetic is
taken as exact); the visual node (location and rotation) and the movement component
(velocity) are as before. -/
theorem ClientTick_guard_skips_interpolation (FloatAdd : ℚ → ℚ → ℚ)
    (Slerp : FQuat → FQuat → ℚ → FQuat) (DeltaTime : ℚ) (c : UGoKartReplicationComponent)
    (hsmall : c.ClientTimeBetweenLastUpdate < KINDA_SMALL_NUMBER) :
    ClientTick FloatAdd Slerp DeltaTime c
        = { c with ClientTimeSinceUpdate := FloatAdd c.ClientTimeSinceUpdate DeltaTime }
      ∧ (ClientTick.run FloatAdd Slerp DeltaTime c).1 = none
      ∧ (ClientTick FloatAdd Slerp DeltaTime c).MeshOffsetRoot = c.MeshOffsetRoot
      ∧ (ClientTick FloatAdd Slerp DeltaTime c).MovementComponent = c.MovementComponent
      ∧ (ClientTick FloatAdd Slerp DeltaTime c).ClientTimeSinceUpdate
        = FloatAdd c.ClientTimeSinceUpdate DeltaTime
      ∧ (ClientTick ExactAdd Slerp DeltaTime c).ClientTimeSinceUpdate
        = c.ClientTimeSinceUpdate + DeltaTime := by
  have hrun : ∀ F : ℚ → ℚ → ℚ, ClientTick.run F Slerp DeltaTime c
      = (none, { c with ClientTimeSinceUpdate := F c.ClientTimeSinceUpdate DeltaTime }) := by
    intro F
    simp [ClientTick.run, hsmall]
  have h : ∀ F : ℚ → ℚ → ℚ, ClientTick F Slerp DeltaTime c
      = { c with ClientTimeSinceUpdate := F c.ClientTimeSinceUpdate DeltaTime } := by
    intro F
    simp [ClientTick, hrun F]
  refine ⟨h FloatAdd, ?_, ?_, ?_, ?_, ?_⟩
  · rw [hrun FloatAdd]
  · rw [h FloatAdd]
  · rw [h FloatAdd]
  · rw [h FloatAdd]
  · rw [h ExactAdd]
    rfl

/-- C9, amended, on the sample kart, whose snapshot interval is zero: under float addition
a 60 Hz tick leaves the visual node where it was, builds no spline and only sets
`ClientTimeSinceUpdate` to the float nearest `1 / 60`. -/
theorem ClientTick_guard_skips_interpolation_witness :
    (ClientTick Float32.add Sample.Slerp Sample.sixtieth Sample.kart).MeshOffsetRoot
        = Sample.kart.MeshOffsetRoot
      ∧ (ClientTick.run Float32.add Sample.Slerp Sample.sixtieth Sample.kart).1 = none
      ∧ (ClientTick Float32.add Sample.Slerp Sample.sixtieth Sample.kart).ClientTimeSinceUpdate
        = Sample.sixtieth :=
  ⟨(ClientTick_guard_skips_interpolation Float32.add Sample.Slerp Sample.sixtieth Sample.kart
      (by decide!)).2.2.1,
   (ClientTick_guard_skips_interpolation Float32.add Sample.Slerp Sample.sixtieth Sample.kart
      (by decide!)).2.1,
   (ClientTick_guard_skips_interpolation Float32.add Sample.Slerp Sample.sixtieth Sample.kart
      (by decide!)).2.2.2.2.1.trans (by decide!)⟩

/-! ## Role dispatch -/

/-- C10, counterexample: on the server's copy of a remotely driven kart (movement
component wired, role `Authority`, not locally controlled) no condition of `SetupMove`
holds: the dispatch selects no branch and the tick leaves the component exactly as it was,
although each of the three branches would have changed it (the send grows `SentMoves`,
`UpdateServerState` rewrites `ServerState`, `ClientTick` advances
`ClientTimeSinceUpdate`). -/
theorem SetupMove_authority_remote_runs_no_branch :
    Sample.remoteKart.MovementComponent = some ⟨Sample.origin, Sample.move 0 0⟩
      ∧ Sample.remoteKart.OwnerRole = ROLE_Authority
      ∧ Sample.remoteKart.OwnerIsLocallyControlled = false
      ∧ SetupMove.branch Sample.remoteKart.OwnerRole
          Sample.remoteKart.OwnerIsLocallyControlled = none
      ∧ SetupMove Float32.add Sample.Slerp Sample.sixtieth Sample.remoteKart = Sample.remoteKart
      ∧ Server_SendMove (Sample.move 0 0)
          { Sample.remoteKart with
            UnacknowledgedMoves := Sample.remoteKart.UnacknowledgedMoves ++ [Sample.move 0 0] }
          ≠ Sample.remoteKart
      ∧ UpdateServerState (Sample.move 0 0) Sample.remoteKart ≠ Sample.remoteKart
      ∧ ClientTick Float32.add Sample.Slerp Sample.sixtieth Sample.remoteKart
          ≠ Sample.remoteKart := by
  refine ⟨rfl, rfl, rfl, by decide, ?_, ?_, ?_, ?_⟩
  · simp [SetupMove, SetupMove.branch, Sample.remoteKart, Sample.kart]
  · intro h
    have h2 := congrArg UGoKartReplicationComponent.SentMoves h
    simp [Server_SendMove, Sample.remoteKart, Sample.kart] at h2
  · intro h
    have h2 := congrArg (fun k => k.ServerState.Transform.Translation.X) h
    simp [UpdateServerState, Sample.remoteKart, Sample.kart, Sample.identity, Sample.origin,
      FTransform.SetLocation] at h2
  · decide!

/-- C10, amended: with the movement component wired, a tick of `SetupMove` runs at most
one of the three branches, chosen by the owner role and the locally-controlled flag: the
controlling-client send (append to the buffer, then `Server_SendMove`) exactly when the role
is `AutonomousProxy`; otherwise the server-authority update (`UpdateServerState`) exactly
when the owner is locally controlled; otherwise the remote-observer `ClientTick` exactly
when the role is `SimulatedProxy`; and no branch at all, the component staying unchanged,
exactly when the owner is not locally controlled and the role is `None` or `Authority`. -/
theorem SetupMove_runs_at_most_one_branch (FloatAdd : ℚ → ℚ → ℚ)
    (Slerp : FQuat → FQuat → ℚ → FQuat) (DeltaTime : ℚ) (c : UGoKartReplicationComponent)
    (mc : UGoKartMovementComponent)
    (hmc : c.MovementComponent = some mc) :
    (SetupMove.branch c.OwnerRole c.OwnerIsLocallyControlled
          = some SetupMoveBranch.ControllingClientSend
        ↔ c.OwnerRole = ROLE_AutonomousProxy)
      ∧ (SetupMove.branch c.OwnerRole c.OwnerIsLocallyControlled
          = some SetupMoveBranch.ServerAuthorityUpdate
        ↔ c.OwnerRole ≠ ROLE_AutonomousProxy ∧ c.OwnerIsLocallyControlled = true)
      ∧ (SetupMove.branch c.OwnerRole c.OwnerIsLocallyControlled
          = some SetupMoveBranch.RemoteObserverTick
        ↔ c.OwnerRole = ROLE_SimulatedProxy ∧ c.OwnerIsLocallyControlled = false)
      ∧ (SetupMove.branch c.OwnerRole c.OwnerIsLocallyControlled = none
        ↔ (c.OwnerRole = ROLE_None ∨ c.OwnerRole = ROLE_Authority)
          ∧ c.OwnerIsLocallyControlled = false)
      ∧ (c.OwnerRole = ROLE_AutonomousProxy →
          SetupMove FloatAdd Slerp DeltaTime c
            = Server_SendMove mc.LastMove
                { c with UnacknowledgedMoves := c.UnacknowledgedMoves ++ [mc.LastMove] })
      ∧ (c.OwnerRole ≠ ROLE_AutonomousProxy → c.OwnerIsLocallyControlled = true →
          SetupMove FloatAdd Slerp DeltaTime c = UpdateServerState mc.LastMove c)
      ∧ (c.OwnerRole = ROLE_SimulatedProxy → c.OwnerIsLocallyControlled = false →
          SetupMove FloatAdd Slerp DeltaTime c = ClientTick FloatAdd Slerp DeltaTime c)
      ∧ ((c.OwnerRole = ROLE_None ∨ c.OwnerRole = ROLE_Authority) →
          c.OwnerIsLocallyControlled = false → SetupMove FloatAdd Slerp DeltaTime c = c) := by
  refine ⟨?_, ?_, ?_, ?_, ?_, ?_, ?_, ?_⟩
  · cases c.OwnerRole <;> cases c.OwnerIsLocallyControlled <;> simp [SetupMove.branch]
  · cases c.OwnerRole <;> cases c.OwnerIsLocallyControlled <;> simp [SetupMove.branch]
  · cases c.OwnerRole <;> cases c.OwnerIsLocallyControlled <;> simp [SetupMove.branch]
  · cases c.OwnerRole <;> cases c.OwnerIsLocallyControlled <;> simp [SetupMove.branch]
  · intro hr
    simp [SetupMove, SetupMove.branch, hmc, hr]
  · intro hr hl
    simp [SetupMove, SetupMove.branch, hmc, hr, hl]
  · intro hr hl
    simp [SetupMove, SetupMove.branch, hmc, hr, hl]
  · intro hr hl
    rcases hr with hr | hr <;> simp [SetupMove, SetupMove.branch, hmc, hr, hl]

/-- C10, amended, on the sample data: the controlling client (role `AutonomousProxy`)
appends the movement component's last move to the buffer and hands it to `Server_SendMove`;
the locally controlled kart on the server rewrites `ServerState`; the observer (role
`SimulatedProxy`) runs `ClientTick`; the remotely controlled kart on the server (role
`Authority`) is left unchanged. -/
theorem SetupMove_runs_at_most_one_branch_witness :
    (SetupMove Float32.add Sample.Slerp Sample.sixtieth Sample.client).UnacknowledgedMoves
        = Sample.buffer ++ [Sample.move (1 / 10) (2 / 10)]
      ∧ (SetupMove Float32.add Sample.Slerp Sample.sixtieth Sample.client).SentMoves
        = [Sample.move (1 / 10) (2 / 10)]
      ∧ SetupMove Float32.add Sample.Slerp Sample.sixtieth
          { Sample.kart with OwnerIsLocallyControlled := true }
        = UpdateServerState (Sample.move 0 0)
            { Sample.kart with OwnerIsLocallyControlled := true }
      ∧ SetupMove Float32.add Sample.Slerp Sample.sixtieth (Sample.observer 0)
        = ClientTick Float32.add Sample.Slerp Sample.sixtieth (Sample.observer 0)
      ∧ SetupMove Float32.add Sample.Slerp Sample.sixtieth { Sample.kart with TimeSeconds := 2 }
        = { Sample.kart with TimeSeconds := 2 } :=
  have h := (SetupMove_runs_at_most_one_branch Float32.add Sample.Slerp Sample.sixtieth
    Sample.client _
    rfl).2.2.2.2.1 rfl
  ⟨congrArg UGoKartReplicationComponent.UnacknowledgedMoves h,
   congrArg UGoKartReplicationComponent.SentMoves h,
   (SetupMove_runs_at_most_one_branch Float32.add Sample.Slerp Sample.sixtieth
      { Sample.kart with OwnerIsLocallyControlled := true } _ rfl).2.2.2.2.2.1
      (by decide) rfl,
   (SetupMove_runs_at_most_one_branch Float32.add Sample.Slerp Sample.sixtieth (Sample.observer 0) _
      rfl).2.2.2.2.2.2.1 rfl rfl,
   (SetupMove_runs_at_most_one_branch Float32.add Sample.Slerp Sample.sixtieth
      { Sample.kart with TimeSeconds := 2 } _ rfl).2.2.2.2.2.2.2 (Or.inr rfl) rfl⟩

/-! ## Order of the unacknowledged-move buffer -/

/-- In a buffer in non-decreasing time-stamp order no move is stamped later than the last
one. -/
theorem buffer_le_last_of_sorted (b : List FGoKartMove) (last : FGoKartMove)
    (hb : b.Pairwise (fun m1 m2 => m1.TimeStamp ≤ m2.TimeStamp))
    (hlast : b.getLast? = some last) :
    ∀ x ∈ b, x.TimeStamp ≤ last.TimeStamp := by
  obtain ⟨ys, rfl⟩ := List.getLast?_eq_some_iff.mp hlast
  rw [List.pairwise_append] at hb
  intro x hx
  rcases List.mem_append.mp hx with hx | hx
  · exact hb.2.2 x hx last (by simp)
  · have : x = last := by simpa using hx
    rw [this]

/-- C11: for a buffer in non-decreasing `TimeStamp` order, `ClearAcknowledgedMoves a`
leaves a suffix of the old buffer (moves are trimmed from the front only), again in
non-decreasing order; and the controlling-client tick of `SetupMove`, appending a move
stamped no earlier than the last buffered one, leaves the buffer in non-decreasing order
too. -/
theorem ClearAcknowledgedMoves_keeps_buffer_order (a : FGoKartMove)
    (c : UGoKartReplicationComponent)
    (hsorted : c.UnacknowledgedMoves.Pairwise (fun m1 m2 => m1.TimeStamp ≤ m2.TimeStamp)) :
    List.IsSuffix (ClearAcknowledgedMoves a c).UnacknowledgedMoves c.UnacknowledgedMoves
      ∧ (ClearAcknowledgedMoves a c).UnacknowledgedMoves.Pairwise
          (fun m1 m2 => m1.TimeStamp ≤ m2.TimeStamp)
      ∧ (∀ (FloatAdd : ℚ → ℚ → ℚ) (Slerp : FQuat → FQuat → ℚ → FQuat) (DeltaTime : ℚ)
          (mc : UGoKartMovementComponent),
          c.MovementComponent = some mc → c.OwnerRole = ROLE_AutonomousProxy →
          (∀ last, c.UnacknowledgedMoves.getLast? = some last →
            last.TimeStamp ≤ mc.LastMove.TimeStamp) →
          (SetupMove FloatAdd Slerp DeltaTime c).UnacknowledgedMoves
              = c.UnacknowledgedMoves ++ [mc.LastMove]
            ∧ (SetupMove FloatAdd Slerp DeltaTime c).UnacknowledgedMoves.Pairwise
                (fun m1 m2 => m1.TimeStamp ≤ m2.TimeStamp)) := by
  have hb := ClearAcknowledgedMoves_buffer_eq a c
  refine ⟨?_, ?_, ?_⟩
  · rw [hb]
    exact ⟨c.UnacknowledgedMoves.filter (fun m => decide (m.TimeStamp ≤ a.TimeStamp)),
      (buffer_split_of_sorted a.TimeStamp c.UnacknowledgedMoves hsorted).symm⟩
  · rw [hb]
    exact hsorted.filter _
  · intro FloatAdd Slerp DeltaTime mc hmc hrole hlast
    have happ : (SetupMove FloatAdd Slerp DeltaTime c).UnacknowledgedMoves
        = c.UnacknowledgedMoves ++ [mc.LastMove] := by
      simp [SetupMove, SetupMove.branch, Server_SendMove, hmc, hrole]
    refine ⟨happ, ?_⟩
    rw [happ, List.pairwise_append]
    refine ⟨hsorted, List.pairwise_singleton _ _, ?_⟩
    intro x hx y hy
    have hy2 : y = mc.LastMove := by simpa using hy
    rw [hy2]
    cases hl : c.UnacknowledgedMoves.getLast? with
    | none =>
      rw [List.getLast?_eq_none_iff] at hl
      rw [hl] at hx
      simp at hx
    | some last =>
      exact le_trans (buffer_le_last_of_sorted _ last hsorted hl x hx) (hlast last hl)

/-- C11 on the sample controlling client, whose buffer is stamped `[0.0, 0.1, 0.2]`:
pruning with the acknowledged stamp `0.1` leaves a suffix of the buffer, and the tick
appends a move stamped `0.2`, not earlier than the last buffered move, keeping the order. -/
theorem ClearAcknowledgedMoves_keeps_buffer_order_witness :
    List.IsSuffix
        (ClearAcknowledgedMoves (Sample.move (1 / 10) (1 / 10))
          Sample.client).UnacknowledgedMoves Sample.buffer
      ∧ (SetupMove Float32.add Sample.Slerp Sample.sixtieth
          Sample.client).UnacknowledgedMoves.Pairwise
          (fun m1 m2 => m1.TimeStamp ≤ m2.TimeStamp) :=
  have h := ClearAcknowledgedMoves_keeps_buffer_order (Sample.move (1 / 10) (1 / 10))
    Sample.client (by simp [Sample.client, Sample.buffer, Sample.move]; norm_num)
  ⟨h.1,
   (h.2.2 Float32.add Sample.Slerp Sample.sixtieth _ rfl rfl
      (by
        intro last hl
        simp [Sample.client, Sample.buffer, Sample.move] at hl
        rw [← hl]
        simp [Sample.client, Sample.move])).2⟩

/-! ## Timers of the remote observer -/

/-- On every path `ClientTick` replaces `ClientTimeSinceUpdate` by its float sum with
`DeltaTime`, leaves `ClientTimeBetweenLastUpdate` alone and keeps the movement component
wired. -/
theorem ClientTick_timers (FloatAdd : ℚ → ℚ → ℚ) (Slerp : FQuat → FQuat → ℚ → FQuat)
    (DeltaTime : ℚ) (c : UGoKartReplicationComponent) :
    (ClientTick FloatAdd Slerp DeltaTime c).ClientTimeSinceUpdate
        = FloatAdd c.ClientTimeSinceUpdate DeltaTime
      ∧ (ClientTick FloatAdd Slerp DeltaTime c).ClientTimeBetweenLastUpdate
        = c.ClientTimeBetweenLastUpdate
      ∧ (c.MovementComponent.isSome = true →
          (ClientTick FloatAdd Slerp DeltaTime c).MovementComponent.isSome = true) := by
  unfold ClientTick ClientTick.run
  by_cases hg : c.ClientTimeBetweenLastUpdate < KINDA_SMALL_NUMBER
  · simp [hg]
  · cases hmc : c.MovementComponent with
    | none => simp [hg, hmc]
    | some mc =>
      cases hroot : c.MeshOffsetRoot with
      | none => simp [hg, hmc, hroot, InterpLocation, InterpDerivative, InterpRotation]
      | some root => simp [hg, hmc, hroot, InterpLocation, InterpDerivative, InterpRotation]

/-- Consecutive ticks accumulate `ClientTimeSinceUpdate` with the float addition, leave
`ClientTimeBetweenLastUpdate` alone and keep the movement component wired. -/
theorem ClientTicks_timers (FloatAdd : ℚ → ℚ → ℚ) (Slerp : FQuat → FQuat → ℚ → FQuat)
    (DeltaTimes : List ℚ) :
    ∀ c : UGoKartReplicationComponent,
      (ClientTicks FloatAdd Slerp DeltaTimes c).ClientTimeSinceUpdate
          = DeltaTimes.foldl FloatAdd c.ClientTimeSinceUpdate
        ∧ (ClientTicks FloatAdd Slerp DeltaTimes c).ClientTimeBetweenLastUpdate
          = c.ClientTimeBetweenLastUpdate
        ∧ (c.MovementComponent.isSome = true →
            (ClientTicks FloatAdd Slerp DeltaTimes c).MovementComponent.isSome = true) := by
  induction DeltaTimes with
  | nil => intro c; simp [ClientTicks]
  | cons d rest ih =>
    intro c
    have h1 := ClientTick_timers FloatAdd Slerp d c
    have h2 := ih (ClientTick FloatAdd Slerp d c)
    simp only [ClientTicks, List.foldl_cons] at h2 ⊢
    rw [h2.1, h2.2.1, h1.1, h1.2.1]
    exact ⟨rfl, rfl, fun hw => h2.2.2 (h1.2.2 hw)⟩

/-- With exact addition the accumulated timer is the start value plus the sum. -/
theorem foldl_ExactAdd (DeltaTimes : List ℚ) :
    ∀ t0 : ℚ, DeltaTimes.foldl ExactAdd t0 = t0 + DeltaTimes.sum := by
  induction DeltaTimes with
  | nil => intro t0; simp
  | cons d rest ih =>
    intro t0
    simp only [List.foldl_cons, List.sum_cons, ExactAdd_apply]
    rw [ih]
    ring

/-- Past the guard and with the movement component wired, the spline `ClientTick` builds is
`CreateSpline` of the component whose timer has already been advanced. -/
theorem ClientTick_run_spline (FloatAdd : ℚ → ℚ → ℚ) (Slerp : FQuat → FQuat → ℚ → FQuat)
    (DeltaTime : ℚ) (c : UGoKartReplicationComponent)
    (hpast : ¬ c.ClientTimeBetweenLastUpdate < KINDA_SMALL_NUMBER)
    (hmc : c.MovementComponent.isSome = true) :
    (ClientTick.run FloatAdd Slerp DeltaTime c).1
      = some (CreateSpline
          { c with ClientTimeSinceUpdate := FloatAdd c.ClientTimeSinceUpdate DeltaTime }) := by
  cases hm : c.MovementComponent with
  | none => simp [hm] at hmc
  | some mc => simp [ClientTick.run, hpast, hm]

/-- C12, counterexample: with the engine's float addition the timer is not the sum of the
deltas. After a snapshot (interval `1 / 2`) and three ticks of `0.1f`,
`ClientTimeSinceUpdate` is `5033165 / 16777216`, not `40265319 / 134217728`, and the spline
the third tick builds has `LerpRatio = 5033165 / 8388608`, not the sum of the deltas over
the interval. -/
theorem ClientTicks_timer_float_rounds :
    (SimulatedProxy_OnRep_ReplicatedServerState
        (Sample.observer (1 / 2))).ClientTimeBetweenLastUpdate = 1 / 2
      ∧ (ClientTicks Float32.add Sample.Slerp [Sample.tenth, Sample.tenth, Sample.tenth]
          (SimulatedProxy_OnRep_ReplicatedServerState
            (Sample.observer (1 / 2)))).ClientTimeSinceUpdate = 5033165 / 16777216
      ∧ (ClientTicks Float32.add Sample.Slerp [Sample.tenth, Sample.tenth, Sample.tenth]
          (SimulatedProxy_OnRep_ReplicatedServerState
            (Sample.observer (1 / 2)))).ClientTimeSinceUpdate
        ≠ Sample.tenth + Sample.tenth + Sample.tenth
      ∧ ((ClientTick.run Float32.add Sample.Slerp Sample.tenth
          (ClientTicks Float32.add Sample.Slerp [Sample.tenth, Sample.tenth]
            (SimulatedProxy_OnRep_ReplicatedServerState
              (Sample.observer (1 / 2))))).1).map FHermiteCubicSpline.LerpRatio
        = some (5033165 / 8388608)
      ∧ (5033165 / 8388608 : ℚ) ≠ (Sample.tenth + Sample.tenth + Sample.tenth) / (1 / 2) := by
  decide!

/-- C12, amended: with both collaborators wired,
`SimulatedProxy_OnRep_ReplicatedServerState` sets `ClientTimeBetweenLastUpdate` to the
previous `ClientTimeSinceUpdate`, resets `ClientTimeSinceUpdate` to `0` and records the
visual node's location and rotation and the simulator's velocity as the start triple.
After any ticks `d1..dn` that follow, with no further snapshot, `ClientTimeSinceUpdate` is
the float accumulation of `d1..dn` from `0`. With arithmetic taken as exact it is
`d1 + ... + dn`, and, the interval being at least `KINDA_SMALL_NUMBER`, the spline the
next tick `d` builds has `LerpRatio = (d1 + ... + dn + d) / ClientTimeBetweenLastUpdate`,
not clamped: it exceeds `1` whenever the sum exceeds the interval. -/
theorem SimulatedProxy_OnRep_then_ticks (FloatAdd : ℚ → ℚ → ℚ)
    (Slerp : FQuat → FQuat → ℚ → FQuat) (c : UGoKartReplicationComponent)
    (mc : UGoKartMovementComponent) (root : USceneComponent) (DeltaTimes : List ℚ)
    (hmc : c.MovementComponent = some mc) (hroot : c.MeshOffsetRoot = some root) :
    (SimulatedProxy_OnRep_ReplicatedServerState c).ClientTimeBetweenLastUpdate
        = c.ClientTimeSinceUpdate
      ∧ (SimulatedProxy_OnRep_ReplicatedServerState c).ClientTimeSinceUpdate = 0
      ∧ (SimulatedProxy_OnRep_ReplicatedServerState c).ClientStartTransform.GetLocation
        = root.WorldLocation
      ∧ (SimulatedProxy_OnRep_ReplicatedServerState c).ClientStartTransform.GetRotation
        = root.WorldRotation
      ∧ (SimulatedProxy_OnRep_ReplicatedServerState c).ClientStartVelocity = mc.Velocity
      ∧ (ClientTicks FloatAdd Slerp DeltaTimes
          (SimulatedProxy_OnRep_ReplicatedServerState c)).ClientTimeSinceUpdate
        = DeltaTimes.foldl FloatAdd 0
      ∧ (ClientTicks FloatAdd Slerp DeltaTimes
          (SimulatedProxy_OnRep_ReplicatedServerState c)).ClientTimeBetweenLastUpdate
        = c.ClientTimeSinceUpdate
      ∧ (ClientTicks ExactAdd Slerp DeltaTimes
          (SimulatedProxy_OnRep_ReplicatedServerState c)).ClientTimeSinceUpdate
        = DeltaTimes.sum
      ∧ (∀ d : ℚ, KINDA_SMALL_NUMBER ≤ c.ClientTimeSinceUpdate →
          ((ClientTick.run ExactAdd Slerp d
              (ClientTicks ExactAdd Slerp DeltaTimes
                (SimulatedProxy_OnRep_ReplicatedServerState c))).1).map
              FHermiteCubicSpline.LerpRatio
            = some ((DeltaTimes.sum + d) / c.ClientTimeSinceUpdate))
      ∧ (∀ d : ℚ, KINDA_SMALL_NUMBER ≤ c.ClientTimeSinceUpdate →
          c.ClientTimeSinceUpdate < DeltaTimes.sum + d →
          ∃ S : FHermiteCubicSpline,
            (ClientTick.run ExactAdd Slerp d
              (ClientTicks ExactAdd Slerp DeltaTimes
                (SimulatedProxy_OnRep_ReplicatedServerState c))).1 = some S
              ∧ 1 < S.LerpRatio) := by
  have hrep : SimulatedProxy_OnRep_ReplicatedServerState c
      = { c with
          ClientTimeBetweenLastUpdate := c.ClientTimeSinceUpdate
          ClientTimeSinceUpdate := 0
          ClientStartTransform :=
            (c.ClientStartTransform.SetLocation root.WorldLocation).SetRotation
              root.WorldRotation
          ClientStartVelocity := mc.Velocity
          OwnerTransform := c.ServerState.Transform } := by
    simp [SimulatedProxy_OnRep_ReplicatedServerState, hmc, hroot]
  have h0 : (SimulatedProxy_OnRep_ReplicatedServerState c).ClientTimeSinceUpdate = 0 := by
    rw [hrep]
  have hi : (SimulatedProxy_OnRep_ReplicatedServerState c).ClientTimeBetweenLastUpdate
      = c.ClientTimeSinceUpdate := by
    rw [hrep]
  have hw : (SimulatedProxy_OnRep_ReplicatedServerState c).MovementComponent.isSome = true := by
    rw [hrep]; simp [hmc]
  have ht := ClientTicks_timers FloatAdd Slerp DeltaTimes
    (SimulatedProxy_OnRep_ReplicatedServerState c)
  have hte := ClientTicks_timers ExactAdd Slerp DeltaTimes
    (SimulatedProxy_OnRep_ReplicatedServerState c)
  have hsum : (ClientTicks ExactAdd Slerp DeltaTimes
      (SimulatedProxy_OnRep_ReplicatedServerState c)).ClientTimeSinceUpdate
      = DeltaTimes.sum := by
    rw [hte.1, h0, foldl_ExactAdd, zero_add]
  have hint : (ClientTicks ExactAdd Slerp DeltaTimes
      (SimulatedProxy_OnRep_ReplicatedServerState c)).ClientTimeBetweenLastUpdate
      = c.ClientTimeSinceUpdate := by
    rw [hte.2.1, hi]
  have hspline : ∀ d : ℚ, KINDA_SMALL_NUMBER ≤ c.ClientTimeSinceUpdate →
      (ClientTick.run ExactAdd Slerp d
        (ClientTicks ExactAdd Slerp DeltaTimes
          (SimulatedProxy_OnRep_ReplicatedServerState c))).1
        = some (CreateSpline
            { ClientTicks ExactAdd Slerp DeltaTimes
                (SimulatedProxy_OnRep_ReplicatedServerState c) with
              ClientTimeSinceUpdate :=
                ExactAdd (ClientTicks ExactAdd Slerp DeltaTimes
                  (SimulatedProxy_OnRep_ReplicatedServerState c)).ClientTimeSinceUpdate d }) := by
    intro d hk
    refine ClientTick_run_spline ExactAdd Slerp d _ ?_ (hte.2.2 hw)
    rw [hint]
    exact not_lt.mpr hk
  have hratio : ∀ d : ℚ,
      (CreateSpline
        { ClientTicks ExactAdd Slerp DeltaTimes
            (SimulatedProxy_OnRep_ReplicatedServerState c) with
          ClientTimeSinceUpdate :=
            ExactAdd (ClientTicks ExactAdd Slerp DeltaTimes
              (SimulatedProxy_OnRep_ReplicatedServerState c)).ClientTimeSinceUpdate
              d }).LerpRatio
        = (DeltaTimes.sum + d) / c.ClientTimeSinceUpdate := by
    intro d
    simp only [CreateSpline, ExactAdd_apply]
    rw [hsum, hint]
  refine ⟨hi, h0, ?_, ?_, ?_, ?_, ?_, hsum, ?_, ?_⟩
  · rw [hrep]; rfl
  · rw [hrep]; rfl
  · rw [hrep]
  · rw [ht.1, h0]
  · rw [ht.2.1, hi]
  · intro d hk
    rw [hspline d hk, Option.map_some', hratio d]
  · intro d hk hlt
    refine ⟨_, hspline d hk, ?_⟩
    rw [hratio d]
    have hpos : 0 < c.ClientTimeSinceUpdate := lt_of_lt_of_le KINDA_SMALL_NUMBER_pos hk
    exact (one_lt_div hpos).mpr hlt

/-- C12, amended, on the scenario of the specification, arithmetic taken as exact: a
snapshot arrives half a second after the previous one; the second of two ticks of `1 / 8`
(a quarter of a second in all) builds its spline with ratio `1 / 2`, and after a tick of
`1 / 2` a tick of `1 / 4` builds one whose ratio has passed `1`. -/
theorem SimulatedProxy_OnRep_then_ticks_witness :
    ((ClientTick.run ExactAdd Sample.Slerp (1 / 8)
        (ClientTicks ExactAdd Sample.Slerp [1 / 8]
          (SimulatedProxy_OnRep_ReplicatedServerState (Sample.observer (1 / 2))))).1).map
        FHermiteCubicSpline.LerpRatio = some (1 / 2)
      ∧ ∃ S : FHermiteCubicSpline,
          (ClientTick.run ExactAdd Sample.Slerp (1 / 4)
            (ClientTicks ExactAdd Sample.Slerp [1 / 2]
              (SimulatedProxy_OnRep_ReplicatedServerState (Sample.observer (1 / 2))))).1
            = some S
          ∧ 1 < S.LerpRatio :=
  ⟨((SimulatedProxy_OnRep_then_ticks ExactAdd Sample.Slerp (Sample.observer (1 / 2)) _ _
      [1 / 8] rfl rfl).2.2.2.2.2.2.2.2.1 (1 / 8) (by decide!)).trans (by decide!),
   (SimulatedProxy_OnRep_then_ticks ExactAdd Sample.Slerp (Sample.observer (1 / 2)) _ _
      [1 / 2] rfl rfl).2.2.2.2.2.2.2.2.2 (1 / 4) (by decide!) (by decide!)⟩

/-! ## Hermite midpoint -/

/-- At `LerpRatio = 1 / 2` the interpolated location is the cubic Hermite midpoint: the
linear midpoint plus an eighth of the difference of the two derivatives. -/
theorem InterpolateLocation_half (s : FHermiteCubicSpline) (hr : s.LerpRatio = 1 / 2) :
    s.InterpolateLocation
      = (s.StartLocation + s.TargetLocation) / (2 : ℚ)
        + (s.StartDerivative - s.TargetDerivative) / (8 : ℚ) := by
  simp only [FHermiteCubicSpline.InterpolateLocation, FMath.CubicInterp, hr]
  ext <;> simp <;> ring

/-- C13, counterexample: the sample observer `Sample.coasting` is at `LerpRatio = 1 / 2`,
its start velocity and its target velocity both differ from the straight-line velocity
`(TargetLocation - StartLocation) / VelocityToDerative`, and yet `InterpolateLocation`
returns the linear midpoint `(StartLocation + TargetLocation) / 2`. -/
theorem InterpolateLocation_midpoint_may_be_linear :
    (CreateSpline Sample.coasting).LerpRatio = 1 / 2
      ∧ Sample.coasting.ClientStartVelocity
          ≠ ((CreateSpline Sample.coasting).TargetLocation
              - (CreateSpline Sample.coasting).StartLocation)
            / (CreateSpline Sample.coasting).VelocityToDerative
      ∧ Sample.coasting.ServerState.Velocity
          ≠ ((CreateSpline Sample.coasting).TargetLocation
              - (CreateSpline Sample.coasting).StartLocation)
            / (CreateSpline Sample.coasting).VelocityToDerative
      ∧ (CreateSpline Sample.coasting).InterpolateLocation
          = ((CreateSpline Sample.coasting).StartLocation
              + (CreateSpline Sample.coasting).TargetLocation) / (2 : ℚ)
      ∧ (CreateSpline Sample.coasting).InterpolateLocation = ⟨50, 0, 0⟩ := by
  have hr : (CreateSpline Sample.coasting).LerpRatio = 1 / 2 := by
    norm_num [CreateSpline, Sample.coasting, Sample.observer]
  refine ⟨hr, ?_, ?_, ?_, ?_⟩
  · intro h
    have h2 := congrArg FVector.X h
    norm_num [CreateSpline, Sample.coasting, Sample.observer, Sample.identity, Sample.origin,
      FTransform.SetLocation, FTransform.GetLocation] at h2
  · intro h
    have h2 := congrArg FVector.X h
    norm_num [CreateSpline, Sample.coasting, Sample.observer, Sample.identity, Sample.origin,
      FTransform.SetLocation, FTransform.GetLocation] at h2
  · rw [InterpolateLocation_half _ hr]
    ext <;>
      norm_num [CreateSpline, Sample.coasting, Sample.observer, Sample.identity,
        Sample.origin, FTransform.SetLocation, FTransform.GetLocation]
  · rw [InterpolateLocation_half _ hr]
    ext <;>
      norm_num [CreateSpline, Sample.coasting, Sample.observer, Sample.identity,
        Sample.origin, FTransform.SetLocation, FTransform.GetLocation]

/-- C13, amended: with arithmetic taken as exact (`FMath::CubicInterp` as the cubic
Hermite position basis), for every spline with `LerpRatio = 1 / 2` `InterpolateLocation`
returns the cubic Hermite midpoint `(StartLocation + TargetLocation) / 2 +
(StartDerivative - TargetDerivative) / 8`, and it differs from the linear midpoint exactly
when the two derivatives differ; for the spline `CreateSpline` builds this is exactly when
the start velocity differs from the target velocity. -/
theorem InterpolateLocation_midpoint (s : FHermiteCubicSpline)
    (c : UGoKartReplicationComponent) :
    (s.LerpRatio = 1 / 2 →
        s.InterpolateLocation
            = (s.StartLocation + s.TargetLocation) / (2 : ℚ)
              + (s.StartDerivative - s.TargetDerivative) / (8 : ℚ)
          ∧ (s.InterpolateLocation ≠ (s.StartLocation + s.TargetLocation) / (2 : ℚ)
              ↔ s.StartDerivative ≠ s.TargetDerivative))
      ∧ ((CreateSpline c).LerpRatio = 1 / 2 →
          ((CreateSpline c).InterpolateLocation
              ≠ (c.ClientStartTransform.GetLocation + c.ServerState.Transform.GetLocation)
                / (2 : ℚ)
            ↔ c.ClientStartVelocity ≠ c.ServerState.Velocity)) := by
  have hgen : ∀ t : FHermiteCubicSpline, t.LerpRatio = 1 / 2 →
      (t.InterpolateLocation ≠ (t.StartLocation + t.TargetLocation) / (2 : ℚ)
        ↔ t.StartDerivative ≠ t.TargetDerivative) := by
    intro t ht
    rw [InterpolateLocation_half t ht]
    refine not_congr ?_
    rw [FVector.ext_iff, FVector.ext_iff]
    simp only [FVector.add_X, FVector.add_Y, FVector.add_Z, FVector.sub_X, FVector.sub_Y,
      FVector.sub_Z, FVector.div_X, FVector.div_Y, FVector.div_Z]
    constructor
    · rintro ⟨hx, hy, hz⟩
      exact ⟨by linarith, by linarith, by linarith⟩
    · rintro ⟨hx, hy, hz⟩
      rw [hx, hy, hz]
      simp
  refine ⟨fun hr => ⟨InterpolateLocation_half s hr, hgen s hr⟩, ?_⟩
  intro hr
  have hk : c.ClientTimeBetweenLastUpdate ≠ 0 := by
    intro h0
    simp [CreateSpline, h0] at hr
  have hk2 : c.ClientTimeBetweenLastUpdate * 100 ≠ 0 := mul_ne_zero hk (by norm_num)
  have h := hgen (CreateSpline c) hr
  have hd : (CreateSpline c).StartDerivative = (CreateSpline c).TargetDerivative
      ↔ c.ClientStartVelocity = c.ServerState.Velocity := by
    simp only [CreateSpline]
    rw [FVector.ext_iff, FVector.ext_iff]
    simp only [FVector.muls_X, FVector.muls_Y, FVector.muls_Z]
    constructor
    · rintro ⟨hx, hy, hz⟩
      exact ⟨mul_left_cancel₀ hk2 hx, mul_left_cancel₀ hk2 hy, mul_left_cancel₀ hk2 hz⟩
    · rintro ⟨hx, hy, hz⟩
      rw [hx, hy, hz]
      exact ⟨rfl, rfl, rfl⟩
  exact h.trans (not_congr hd)

/-- C13, amended, on the sample observer halfway between snapshots (`LerpRatio = 1 / 2`):
the start velocity `1` differs from the server velocity `3`, so the interpolated location,
`X = 75 / 2`, is not the linear midpoint `X = 50`. -/
theorem InterpolateLocation_midpoint_witness :
    (CreateSpline (Sample.observer (1 / 4))).InterpolateLocation = ⟨75 / 2, 0, 0⟩
      ∧ (CreateSpline (Sample.observer (1 / 4))).InterpolateLocation
          ≠ ((Sample.observer (1 / 4)).ClientStartTransform.GetLocation
              + (Sample.observer (1 / 4)).ServerState.Transform.GetLocation) / (2 : ℚ) :=
  have hr : (CreateSpline (Sample.observer (1 / 4))).LerpRatio = 1 / 2 := by
    norm_num [CreateSpline, Sample.observer]
  ⟨((InterpolateLocation_midpoint (CreateSpline (Sample.observer (1 / 4)))
      (Sample.observer (1 / 4))).1 hr).1.trans
    (by
      ext <;>
        norm_num [CreateSpline, Sample.observer, Sample.identity, Sample.origin,
          FTransform.SetLocation, FTransform.GetLocation]),
   ((InterpolateLocation_midpoint (CreateSpline (Sample.observer (1 / 4)))
      (Sample.observer (1 / 4))).2 hr).mpr
    (by
      intro h
      have h2 := congrArg FVector.X h
      norm_num [Sample.observer] at h2)⟩

/-! ## The locally controlled kart on the server -/

/-- C14, counterexample: on a kart the server drives itself, a tick whose move would be
accepted (`0.1f` of a second at clock `1`) leaves `ClientSimulatedTime` at `0` where the
server-authority operation would raise it to `0.1f`; and a tick whose move would be
rejected (two seconds at clock `1`) still rewrites `ServerState` with that move. -/
theorem SetupMove_local_authority_skips_validation :
    (Sample.serverKart (Sample.move Sample.tenth 0)).OwnerRole ≠ ROLE_AutonomousProxy
      ∧ (Sample.serverKart (Sample.move Sample.tenth 0)).OwnerIsLocallyControlled = true
      ∧ (Server_SendMove_Validate Float32.add (Sample.move Sample.tenth 0)
          (Sample.serverKart (Sample.move Sample.tenth 0))).1 = true
      ∧ (Server_SendMove_Receive Float32.add Sample.SimulateMove (Sample.move Sample.tenth 0)
          (Sample.serverKart (Sample.move Sample.tenth 0))).ClientSimulatedTime = Sample.tenth
      ∧ (SetupMove Float32.add Sample.Slerp Sample.tenth
          (Sample.serverKart (Sample.move Sample.tenth 0))).ClientSimulatedTime = 0
      ∧ (Server_SendMove_Validate Float32.add (Sample.move 2 0)
          (Sample.serverKart (Sample.move 2 0))).1 = false
      ∧ (Server_SendMove_Receive Float32.add Sample.SimulateMove (Sample.move 2 0)
          (Sample.serverKart (Sample.move 2 0))).ServerState
          = (Sample.serverKart (Sample.move 2 0)).ServerState
      ∧ (SetupMove Float32.add Sample.Slerp 2
          (Sample.serverKart (Sample.move 2 0))).ServerState
          ≠ (Sample.serverKart (Sample.move 2 0)).ServerState
      ∧ (SetupMove Float32.add Sample.Slerp 2
          (Sample.serverKart (Sample.move 2 0))).ServerState.LastMove
          = Sample.move 2 0 := by
  decide!

/-- C14, amended: in the branch of `SetupMove` taken when the owner is locally controlled
and not an autonomous proxy (movement component wired), the tick is `UpdateServerState` on
the just-produced move and nothing else: `ServerState` becomes that move with the owner's
current transform and the simulator's current velocity, whether or not
`Server_SendMove_Validate` would accept the move; `ClientSimulatedTime`, the simulator
state, the buffer and the output log are unchanged, so the move is neither validated nor
simulated again. -/
theorem SetupMove_local_authority_updates_state (FloatAdd : ℚ → ℚ → ℚ)
    (Slerp : FQuat → FQuat → ℚ → FQuat) (DeltaTime : ℚ) (c : UGoKartReplicationComponent)
    (mc : UGoKartMovementComponent)
    (hmc : c.MovementComponent = some mc) (hrole : c.OwnerRole ≠ ROLE_AutonomousProxy)
    (hlocal : c.OwnerIsLocallyControlled = true) :
    SetupMove FloatAdd Slerp DeltaTime c
        = { c with
            ServerState :=
              { LastMove := mc.LastMove, Transform := c.OwnerTransform,
                Velocity := mc.Velocity } }
      ∧ (SetupMove FloatAdd Slerp DeltaTime c).ServerState
        = { LastMove := mc.LastMove, Transform := c.OwnerTransform, Velocity := mc.Velocity }
      ∧ (SetupMove FloatAdd Slerp DeltaTime c).ClientSimulatedTime = c.ClientSimulatedTime
      ∧ SimulatorState (SetupMove FloatAdd Slerp DeltaTime c) = SimulatorState c
      ∧ (SetupMove FloatAdd Slerp DeltaTime c).OutputLog = c.OutputLog := by
  have h : SetupMove FloatAdd Slerp DeltaTime c
      = { c with
          ServerState :=
            { LastMove := mc.LastMove, Transform := c.OwnerTransform,
              Velocity := mc.Velocity } } := by
    simp [SetupMove, SetupMove.branch, UpdateServerState, hmc, hrole, hlocal]
  refine ⟨h, ?_, ?_, ?_, ?_⟩
  · rw [h]
  · rw [h]
  · rw [h]; rfl
  · rw [h]

/-- C14, amended, on the kart the server drives itself with a two-second move that
validation would reject: the tick stores that move in `ServerState` with the kart's
velocity `1` along `X`, and `ClientSimulatedTime` stays `0`. -/
theorem SetupMove_local_authority_updates_state_witness :
    (SetupMove Float32.add Sample.Slerp 2 (Sample.serverKart (Sample.move 2 0))).ServerState
        = { LastMove := Sample.move 2 0, Transform := Sample.identity, Velocity := ⟨1, 0, 0⟩ }
      ∧ (SetupMove Float32.add Sample.Slerp 2
          (Sample.serverKart (Sample.move 2 0))).ClientSimulatedTime
        = 0 :=
  ⟨(SetupMove_local_authority_updates_state Float32.add Sample.Slerp 2
      (Sample.serverKart (Sample.move 2 0)) _ rfl (by decide) rfl).2.1,
   (SetupMove_local_authority_updates_state Float32.add Sample.Slerp 2
      (Sample.serverKart (Sample.move 2 0)) _ rfl (by decide) rfl).2.2.1⟩

/-! ## Simulated time stays below the server clock -/

/-- C16: whenever `ClientTick` builds a spline, it has got past its guard with the
movement component wired, the spline is `CreateSpline` of the component with the timer
already advanced, and both divisors of that tick are strictly positive:
`ClientTimeBetweenLastUpdate`, the divisor of `LerpRatio`, is at least
`KINDA_SMALL_NUMBER`, and the spline's `VelocityToDerative`, the divisor of the velocity,
is at least `100 * KINDA_SMALL_NUMBER`. The tick then is the three interpolation steps on
that spline: the visual node gets the interpolated location and rotation and the movement
component gets `InterpolateDerivative() / VelocityToDerative`. -/
theorem ClientTick_divisors_positive (FloatAdd : ℚ → ℚ → ℚ)
    (Slerp : FQuat → FQuat → ℚ → FQuat) (DeltaTime : ℚ) (c : UGoKartReplicationComponent)
    (S : FHermiteCubicSpline)
    (hbuilt : (ClientTick.run FloatAdd Slerp DeltaTime c).1 = some S) :
    S = CreateSpline
          { c with ClientTimeSinceUpdate := FloatAdd c.ClientTimeSinceUpdate DeltaTime }
      ∧ ¬ c.ClientTimeBetweenLastUpdate < KINDA_SMALL_NUMBER
      ∧ c.MovementComponent.isSome = true
      ∧ KINDA_SMALL_NUMBER ≤ c.ClientTimeBetweenLastUpdate
      ∧ 0 < c.ClientTimeBetweenLastUpdate
      ∧ 100 * KINDA_SMALL_NUMBER ≤ S.VelocityToDerative
      ∧ 0 < S.VelocityToDerative
      ∧ ClientTick FloatAdd Slerp DeltaTime c
        = InterpRotation Slerp S
            (InterpDerivative S
              (InterpLocation S
                { c with
                  ClientTimeSinceUpdate := FloatAdd c.ClientTimeSinceUpdate DeltaTime }))
      ∧ (∀ root : USceneComponent, c.MeshOffsetRoot = some root →
          (ClientTick FloatAdd Slerp DeltaTime c).MeshOffsetRoot
            = some
                { WorldLocation := S.InterpolateLocation
                  WorldRotation :=
                    Slerp c.ClientStartTransform.GetRotation
                      c.ServerState.Transform.GetRotation S.LerpRatio })
      ∧ (∀ mc : UGoKartMovementComponent, c.MovementComponent = some mc →
          (ClientTick FloatAdd Slerp DeltaTime c).MovementComponent
            = some { mc with Velocity := S.InterpolateDerivative / S.VelocityToDerative }) := by
  have hcases : c.MovementComponent = none ∨ ∃ mc0, c.MovementComponent = some mc0 := by
    cases c.MovementComponent with
    | none => exact Or.inl rfl
    | some mc0 => exact Or.inr ⟨mc0, rfl⟩
  by_cases hg : c.ClientTimeBetweenLastUpdate < KINDA_SMALL_NUMBER
  · simp [ClientTick.run, hg] at hbuilt
  · rcases hcases with hmc | ⟨mc0, hmc⟩
    · simp [ClientTick.run, hg, hmc] at hbuilt
    · have hS : CreateSpline
          { c with ClientTimeSinceUpdate := FloatAdd c.ClientTimeSinceUpdate DeltaTime }
          = S := by
        simpa [ClientTick.run, hg, hmc] using hbuilt
      have hge : KINDA_SMALL_NUMBER ≤ c.ClientTimeBetweenLastUpdate := not_lt.mp hg
      have hpos : 0 < c.ClientTimeBetweenLastUpdate :=
        lt_of_lt_of_le KINDA_SMALL_NUMBER_pos hge
      have hv : S.VelocityToDerative = c.ClientTimeBetweenLastUpdate * 100 := by
        rw [← hS]; rfl
      have hrun : ClientTick FloatAdd Slerp DeltaTime c
          = InterpRotation Slerp S
              (InterpDerivative S
                (InterpLocation S
                  { c with
                    ClientTimeSinceUpdate :=
                      FloatAdd c.ClientTimeSinceUpdate DeltaTime })) := by
        rw [← hS]
        simp [ClientTick, ClientTick.run, hg, hmc]
      have hsome : c.MovementComponent.isSome = true := by
        rw [hmc]; rfl
      refine ⟨hS.symm, hg, hsome, hge, hpos, ?_, ?_, hrun, ?_, ?_⟩
      · rw [hv]; linarith
      · rw [hv]; linarith
      · intro root hroot
        rw [hrun]
        simp [InterpRotation, InterpDerivative, InterpLocation, hroot, hmc]
      · intro mc hmc2
        rw [hrun]
        have hmceq : mc0 = mc := by
          rw [hmc] at hmc2
          exact Option.some.inj hmc2
        subst hmceq
        rcases hr : c.MeshOffsetRoot with _ | root
        · simp [InterpRotation, InterpDerivative, InterpLocation, hr, hmc,
            InterpDerivative.NewVelocity]
        · simp [InterpRotation, InterpDerivative, InterpLocation, hr, hmc,
            InterpDerivative.NewVelocity]

/-- C16 on a sample observer whose snapshot interval is exactly `KINDA_SMALL_NUMBER`: under
float addition a 60 Hz tick gets past the guard and builds its spline, whose
`VelocityToDerative` is positive, and the interval is at least `KINDA_SMALL_NUMBER`. -/
theorem ClientTick_divisors_positive_witness :
    (ClientTick.run Float32.add Sample.Slerp Sample.sixtieth
        { Sample.observer 0 with ClientTimeBetweenLastUpdate := KINDA_SMALL_NUMBER }).1
        = some (CreateSpline
            { Sample.observer 0 with
              ClientTimeBetweenLastUpdate := KINDA_SMALL_NUMBER
              ClientTimeSinceUpdate := Sample.sixtieth })
      ∧ 0 < (CreateSpline
          { Sample.observer 0 with
            ClientTimeBetweenLastUpdate := KINDA_SMALL_NUMBER
            ClientTimeSinceUpdate := Sample.sixtieth }).VelocityToDerative
      ∧ KINDA_SMALL_NUMBER
        ≤ ({ Sample.observer 0 with
            ClientTimeBetweenLastUpdate :=
              KINDA_SMALL_NUMBER } : UGoKartReplicationComponent).ClientTimeBetweenLastUpdate :=
  have hb : (ClientTick.run Float32.add Sample.Slerp Sample.sixtieth
      { Sample.observer 0 with ClientTimeBetweenLastUpdate := KINDA_SMALL_NUMBER }).1
      = some (CreateSpline
          { Sample.observer 0 with
            ClientTimeBetweenLastUpdate := KINDA_SMALL_NUMBER
            ClientTimeSinceUpdate := Sample.sixtieth }) := by
    decide!
  have h := ClientTick_divisors_positive Float32.add Sample.Slerp Sample.sixtieth
    { Sample.observer 0 with ClientTimeBetweenLastUpdate := KINDA_SMALL_NUMBER } _ hb
  ⟨hb, h.2.2.2.2.2.2.1, h.2.2.2.1⟩

/-! ## Repeated pruning -/

/-- `ClearAcknowledgedMoves` only replaces the buffer, by its filter. -/
theorem ClearAcknowledgedMoves_eq_update (a : FGoKartMove) (c : UGoKartReplicationComponent) :
    ClearAcknowledgedMoves a c
      = { c with
          UnacknowledgedMoves :=
            c.UnacknowledgedMoves.filter (fun m => decide (m.TimeStamp > a.TimeStamp)) } := by
  simp [ClearAcknowledgedMoves, ClearAcknowledgedMoves_foldl_loopBody]

/-- Filtering by two acknowledged time stamps in a row is filtering by the larger. -/
theorem buffer_filter_twice (t1 t2 : ℚ) (b : List FGoKartMove) :
    (b.filter (fun m => decide (m.TimeStamp > t1))).filter
        (fun m => decide (m.TimeStamp > t2))
      = b.filter (fun m => decide (m.TimeStamp > max t1 t2)) := by
  rw [List.filter_filter]
  apply List.filter_congr
  intro m _
  by_cases h1 : m.TimeStamp > t1 <;> by_cases h2 : m.TimeStamp > t2 <;>
    simp [h1, h2, max_lt_iff]

/-- C17: `ClearAcknowledgedMoves a1` applied twice gives the same component as applying it
once; `ClearAcknowledgedMoves a1` followed by `ClearAcknowledgedMoves a2` gives the same
component as one pruning with whichever of the two moves has the larger time stamp, its
buffer being the moves stamped after `max a1.TimeStamp a2.TimeStamp`; so a snapshot that is
not newer than the one already applied removes nothing more. -/
theorem ClearAcknowledgedMoves_idempotent_and_max (a1 a2 : FGoKartMove)
    (c : UGoKartReplicationComponent) :
    ClearAcknowledgedMoves a1 (ClearAcknowledgedMoves a1 c) = ClearAcknowledgedMoves a1 c
      ∧ ClearAcknowledgedMoves a2 (ClearAcknowledgedMoves a1 c)
        = ClearAcknowledgedMoves (if a1.TimeStamp ≤ a2.TimeStamp then a2 else a1) c
      ∧ (ClearAcknowledgedMoves a2 (ClearAcknowledgedMoves a1 c)).UnacknowledgedMoves
        = c.UnacknowledgedMoves.filter
            (fun m => decide (m.TimeStamp > max a1.TimeStamp a2.TimeStamp))
      ∧ (a2.TimeStamp ≤ a1.TimeStamp →
          ClearAcknowledgedMoves a2 (ClearAcknowledgedMoves a1 c)
            = ClearAcknowledgedMoves a1 c) := by
  have htwice : ∀ b1 b2 : FGoKartMove,
      ClearAcknowledgedMoves b2 (ClearAcknowledgedMoves b1 c)
        = { c with
            UnacknowledgedMoves :=
              c.UnacknowledgedMoves.filter
                (fun m => decide (m.TimeStamp > max b1.TimeStamp b2.TimeStamp)) } := by
    intro b1 b2
    rw [ClearAcknowledgedMoves_eq_update b2, ClearAcknowledgedMoves_eq_update b1]
    simp only [buffer_filter_twice]
  refine ⟨?_, ?_, ?_, ?_⟩
  · rw [htwice, ClearAcknowledgedMoves_eq_update a1 c, max_self]
  · rw [htwice]
    by_cases h : a1.TimeStamp ≤ a2.TimeStamp
    · rw [if_pos h, ClearAcknowledgedMoves_eq_update a2 c, max_eq_right h]
    · rw [if_neg h, ClearAcknowledgedMoves_eq_update a1 c, max_eq_left (le_of_not_le h)]
  · rw [htwice]
  · intro h
    rw [htwice, ClearAcknowledgedMoves_eq_update a1 c, max_eq_left h]

/-- C17 on the scenario buffer `[0.0, 0.1, 0.2]`: pruning with the stamp `0.1` and then with
the stale stamp `0.0` is pruning with `0.1` alone, and leaves the move stamped `0.2`. -/
theorem ClearAcknowledgedMoves_idempotent_and_max_witness :
    ClearAcknowledgedMoves (Sample.move (1 / 10) 0)
        (ClearAcknowledgedMoves (Sample.move (1 / 10) (1 / 10)) Sample.client)
        = ClearAcknowledgedMoves (Sample.move (1 / 10) (1 / 10)) Sample.client
      ∧ (ClearAcknowledgedMoves (Sample.move (1 / 10) 0)
          (ClearAcknowledgedMoves (Sample.move (1 / 10) (1 / 10))
            Sample.client)).UnacknowledgedMoves = [Sample.move (1 / 10) (2 / 10)] :=
  ⟨(ClearAcknowledgedMoves_idempotent_and_max (Sample.move (1 / 10) (1 / 10))
      (Sample.move (1 / 10) 0) Sample.client).2.2.2 (by norm_num [Sample.move]),
   (ClearAcknowledgedMoves_idempotent_and_max (Sample.move (1 / 10) (1 / 10))
      (Sample.move (1 / 10) 0) Sample.client).2.2.1.trans
    (by
      simp [Sample.client, Sample.buffer, Sample.move, List.filter]
      norm_num)⟩

end KrazyKarts
